import Mathlib

/-!
Verification of the customer-name resolution pipeline of the jotex repository.

The Python sources are shallowly embedded: pure functions become Lean
functions over `String` / `List Char`, pandas cells become an explicit
`Cell` type, dataframes become lists of rows, and the external
collaborators (difflib's `SequenceMatcher.ratio`, fuzzywuzzy's scorer,
the sklearn classifier, the OpenAI chat completions and the Business
Central HTTP API) are abstracted as function/oracle parameters, since
their code is not part of the repository.  Python exceptions are
modelled with `Except String`.

String conventions: Python `str.strip`/`split` whitespace is modelled by
the six ASCII whitespace characters (`isPySpace`); `str.lower`/`upper`
are modelled by ASCII case maps (`pyLower`/`pyUpper`).  All inputs
exercised by the theorems below stay inside this common fragment.
-/

/-- Whitespace characters recognised by Python `str.strip()`/`str.split()`
(ASCII fragment). -/
def isPySpace (c : Char) : Bool :=
  c = ' ' || c = '\t' || c = '\n' || c = '\r' || c = '\x0b' || c = '\x0c'

/-- Python `str.strip()` on a character list. -/
def pyStripL (l : List Char) : List Char :=
  ((l.dropWhile isPySpace).reverse.dropWhile isPySpace).reverse

/-- Python `str.strip()`. -/
def pyStrip (s : String) : String :=
  ⟨pyStripL s.toList⟩

/-- Helper for `pySplitWsL`: structural scan accumulating the current
word (reversed). -/
def pySplitWsAux : List Char → List Char → List (List Char)
  | [], acc => if acc = [] then [] else [acc.reverse]
  | c :: t, acc =>
    if isPySpace c then
      if acc = [] then pySplitWsAux t [] else acc.reverse :: pySplitWsAux t []
    else pySplitWsAux t (c :: acc)

/-- Python `str.split()` with no argument: split on whitespace runs,
discarding empty fields. -/
def pySplitWsL (l : List Char) : List (List Char) :=
  pySplitWsAux l []

/-- Python `str.split()` returning strings. -/
def pySplitWs (s : String) : List String :=
  (pySplitWsL s.toList).map (fun l => ⟨l⟩)

/-- Python `sep.join(parts)`. -/
def pyJoin (sep : String) (parts : List String) : String :=
  String.intercalate sep parts

/-- Index of the first occurrence of `needle` in `hay` (Python `str.find`,
with `none` for Python's `-1`). -/
def findSubIdx (needle : List Char) : List Char → Option Nat
  | [] => if needle = [] then some 0 else none
  | c :: t =>
    if needle.isPrefixOf (c :: t) then some 0
    else (findSubIdx needle t).map (· + 1)

/-- Python `hay.find(needle)` as an `Option`. -/
def pyFind (needle hay : String) : Option Nat :=
  findSubIdx needle.toList hay.toList

/-- Index of the last occurrence of `needle` in `hay` (Python `str.rfind`). -/
def pyRfind (needle hay : String) : Option Nat :=
  let rec go : List Char → Nat → Option Nat → Option Nat
    | [], _, best => best
    | c :: t, i, best =>
      if needle.toList.isPrefixOf (c :: t) then go t (i + 1) (some i)
      else go t (i + 1) best
  go hay.toList 0 (if needle = "" then some hay.length else none)

/-- Helper for `replaceAllL`: the scan consumes at least one character per
step, so the fuel argument (initially the list length) keeps the
recursion structural and hence kernel-reducible. -/
def replaceAllAux (needle repl : List Char) : Nat → List Char → List Char
  | 0, l => l
  | _ + 1, [] => []
  | fuel + 1, c :: t =>
    if needle.isPrefixOf (c :: t) then
      repl ++ replaceAllAux needle repl fuel (t.drop (needle.length - 1))
    else c :: replaceAllAux needle repl fuel t

/-- Python `s.replace(needle, repl)` (all occurrences, left to right,
non-overlapping).  Only used with non-empty `needle`, as in the source. -/
def replaceAllL (needle repl : List Char) (l : List Char) : List Char :=
  replaceAllAux needle repl l.length l

/-- Python `s.replace(needle, repl)` on strings. -/
def pyReplace (s needle repl : String) : String :=
  ⟨replaceAllL needle.toList repl.toList s.toList⟩

/-- Python `str.startswith`. -/
def pyStartsWith (head s : String) : Bool :=
  head.toList.isPrefixOf s.toList

/-- Python `str.endswith`. -/
def pyEndsWith (tail s : String) : Bool :=
  tail.toList.reverse.isPrefixOf s.toList.reverse

/-- Take the first `n` characters (Python `s[:n]`). -/
def strTake (s : String) (n : Nat) : String :=
  ⟨s.toList.take n⟩

/-- Drop the first `n` characters (Python `s[n:]`). -/
def strDrop (s : String) (n : Nat) : String :=
  ⟨s.toList.drop n⟩

/-- Character count (Python `len`). -/
def strLen (s : String) : Nat :=
  s.toList.length

/-- Python `str.lower()` (ASCII fragment), character-list based so that it
evaluates by kernel reduction. -/
def pyLower (s : String) : String :=
  ⟨s.toList.map Char.toLower⟩

/-- Python `str.upper()` (ASCII fragment). -/
def pyUpper (s : String) : String :=
  ⟨s.toList.map Char.toUpper⟩

/-- One pandas cell as seen by the pipeline: a missing value (`None`), a
float NaN, or a string. -/
inductive Cell where
  | noneV : Cell
  | nanV : Cell
  | strV (s : String) : Cell
deriving DecidableEq, Repr

/-- Python `pd.isna` on the modelled cell domain (`pd.isna(None)` and
`pd.isna(nan)` are `True`). -/
def cellIsNa : Cell → Bool
  | .noneV => true
  | .nanV => true
  | .strV _ => false

/-- Python `str(...)` applied to a cell (`str(None) = "None"`,
`str(float('nan')) = "nan"`). -/
def pyStr : Cell → String
  | .noneV => "None"
  | .nanV => "nan"
  | .strV s => s

/-- One dataframe row: a total map from column name to cell, mirroring
pandas row access `row[col]`. -/
def RowMap : Type := String → Cell

/-- Pandas cell assignment `df.at[index, col] = v` restricted to one row. -/
def rowSet (row : RowMap) (col : String) (v : Cell) : RowMap :=
  fun c => if c = col then v else row c

/-- A dataframe: its column list and its rows. -/
structure DFrame where
  columns : List String
  rows : List RowMap

/-- Source: `src/utils/update_customer_name.py`, `normalize_customer_name`.
Returns `""` for NaN/None/empty, otherwise strips, decodes `%26`/`%20`
and collapses whitespace runs. -/
def normalize_customer_name (name : Cell) : String :=
  match name with
  | .noneV => ""
  | .nanV => ""
  | .strV s =>
    if s = "" then ""
    else
      let s1 := pyStrip s
      let s2 := pyReplace s1 "%26" "&"
      let s3 := pyReplace s2 "%20" " "
      pyJoin " " (pySplitWs s3)

/-- Source: `src/utils/update_customer_name.py`, `similarity`.  The difflib
`SequenceMatcher(None, a, b).ratio()` primitive is external library code
and is abstracted as the `scorer` parameter; the repository function
lowercases both arguments before scoring. -/
def similarity (scorer : String → String → ℚ) (a b : String) : ℚ :=
  scorer (pyLower a) (pyLower b)

/-- One iteration body of the nested loop of
`find_best_match_in_dataframe` (per row and candidate column). -/
def fbmUpdate (scorer : String → String → ℚ) (input_name : String)
    (dfColumns : List String) (similarity_threshold : ℚ)
    (acc : Option RowMap × ℚ × Option String) (row : RowMap) (col : String) :
    Option RowMap × ℚ × Option String :=
  if dfColumns.contains col then
    let candidate := normalize_customer_name (row col)
    if candidate = "" then acc
    else
      let sim := similarity scorer input_name candidate
      if sim > acc.2.1 ∧ sim ≥ similarity_threshold then (some row, sim, some col)
      else acc
  else acc

/-- Source: `src/utils/update_customer_name.py`, lines 65-87,
`find_best_match_in_dataframe`.  Iterates rows (outer) and the configured
match columns (inner), tracking the best match strictly above the running
best similarity and at or above the threshold.  Returns
`(best_match, best_similarity, best_match_type)`. -/
def find_best_match_in_dataframe (scorer : String → String → ℚ)
    (input_name : String) (df : DFrame) (name_columns : List String)
    (similarity_threshold : ℚ) : Option RowMap × ℚ × Option String :=
  df.rows.foldl
    (fun acc row =>
      name_columns.foldl
        (fun acc col =>
          fbmUpdate scorer input_name df.columns similarity_threshold acc row col)
        acc)
    (none, 0, none)

/-- A (row, column) pair scores a hit at threshold `t`: the column exists,
the normalized cell is non-empty and the similarity is positive and at
least `t`.  Used to characterise `find_best_match_in_dataframe`. -/
def fbmHit (scorer : String → String → ℚ) (input_name : String)
    (dfColumns : List String) (t : ℚ) (p : RowMap × String) : Prop :=
  dfColumns.contains p.2 ∧ normalize_customer_name (p.1 p.2) ≠ "" ∧
    0 < similarity scorer input_name (normalize_customer_name (p.1 p.2)) ∧
    similarity scorer input_name (normalize_customer_name (p.1 p.2)) ≥ t

/-- Source: `src/utils/update_customer_name.py`, lines 480-498: the
description column names probed by `get_description_value`, in order of
preference. -/
def description_columns : List String :=
  ["DESCRIPTION", "Description", "Transaction Description",
   "Transaction Description.1", "Transaction Description.2",
   "Transaction Ref", "TRANSACTION_DESCRIPTION", "transaction_description",
   "DESC", "REMARKS", "Remarks", "NARRATIVE", "Narrative", "DETAILS",
   "Details", "MEMO", "Memo"]

/-- Source: `src/utils/update_customer_name.py`, lines 468-527,
`get_description_value` with `combine_all=True`: collect every available
description field (non-empty, non-`'nan'` after `str()`), deduplicated,
joined with `" | "`; `""` when none found. -/
def get_description_value_combined (row : RowMap) (df_columns : List String) : String :=
  let found := description_columns.foldl
    (fun acc col_name =>
      if df_columns.contains col_name then
        let value := pyStr (row col_name)
        if value ≠ "" ∧ pyStrip value ≠ "" ∧ pyLower value ≠ "nan" then
          let cleaned := pyStrip value
          if acc.contains cleaned then acc else acc ++ [cleaned]
        else acc
      else acc)
    []
  if found.isEmpty then "" else pyJoin " | " found

/-- Python `dict.fromkeys` based deduplication, preserving first
occurrences (source line 828). -/
def dedupAux : List String → List String → List String
  | [], _ => []
  | x :: t, seen =>
    if seen.contains x then dedupAux t seen else x :: dedupAux t (x :: seen)

/-- Deduplicate a list of names preserving order. -/
def dedupKeepOrder (l : List String) : List String :=
  dedupAux l []

/-- A parsed stage-1 structured response.  Each field is `none` when the
JSON object lacks that key (accessing a missing key raises `KeyError` in
Python). -/
structure Stage1Resp where
  analysis : Option String
  is_current_name_appropriate : Option Bool
  confidence_in_current : Option Int
  possible_alternatives : Option (List String)
  recommended_action : Option String
  reasoning : Option String
deriving DecidableEq, Repr

/-- The hard-coded stage-1 fallback object built by the `except` handler
(source lines 663-670); `e` is the stringified exception. -/
def stage1Fallback (e : String) : Stage1Resp :=
  { analysis := some ("Stage 1 analysis failed: " ++ e),
    is_current_name_appropriate := some true,
    confidence_in_current := some 50,
    possible_alternatives := some [],
    recommended_action := some "keep_current",
    reasoning := some "AI analysis failed, keeping current name" }

/-- Source: `src/utils/update_customer_name.py`, lines 579-670,
`EnhancedAICustomerMatcher.stage1_analyze_description`.  The remote chat
call and JSON parse are modelled by the `call` oracle (`.error` for an
exception during the call or an unparsable body, `.ok` for a parsed JSON
object).  Inside the `try` block the code accesses
`result['recommended_action']` and `result['analysis']` (line 658), so a
parsed object missing either key also degrades to the fallback.  The
function therefore never raises and its result always carries
`recommended_action` and `analysis`. -/
def stage1_analyze_description (call : Except String Stage1Resp) : Stage1Resp :=
  match call with
  | .error e => stage1Fallback e
  | .ok r =>
    if r.recommended_action.isNone || r.analysis.isNone then
      stage1Fallback "KeyError"
    else r

/-- The stage-2 `selected_match` JSON object.  `customer_name` is `none`
when the key is absent, `some none` for JSON `null`, `some (some s)` for a
string; `otherKeys` records whether the object carries further keys
(Python dict truthiness is non-emptiness). -/
structure SelectedMatch where
  customer_name : Option (Option String)
  otherKeys : Bool
deriving DecidableEq, Repr

/-- A parsed stage-2 structured response.  `selected_match` is `none` when
the key is absent, `some none` for JSON `null`, `some (some m)` for an
object. -/
structure Stage2Resp where
  analysis : Option String
  selected_match : Option (Option SelectedMatch)
  confidence_score : Option Int
  recommendation : Option String
deriving DecidableEq, Repr

/-- Stage-2 early return for an empty candidate dataframe (source lines
687-694). -/
def stage2EmptyDefault : Stage2Resp :=
  { analysis := some "No potential matches found in Business Central database",
    selected_match := some none,
    confidence_score := some 0,
    recommendation := some "no_match" }

/-- Stage-2 `except` handler object (source lines 776-786). -/
def stage2Fallback (e : String) : Stage2Resp :=
  { analysis := some ("Stage 2 scoring failed: " ++ e),
    selected_match := some none,
    confidence_score := some 0,
    recommendation := some "no_match" }

/-- Source: `src/utils/update_customer_name.py`, lines 672-786,
`EnhancedAICustomerMatcher.stage2_score_matches`.  The prompt f-string
(built before the `try` block) reads
`stage1_analysis['is_current_name_appropriate']`,
`['confidence_in_current']`, `['possible_alternatives']` and
`['reasoning']`; a stage-1 object missing any of these raises an uncaught
`KeyError`.  Inside the `try` block line 772 reads
`result['confidence_score']` and `result['recommendation']`, so a parsed
response missing either degrades to the fallback. -/
def stage2_score_matches (stage1_analysis : Stage1Resp) (matchesEmpty : Bool)
    (call : Except String Stage2Resp) : Except String Stage2Resp :=
  if matchesEmpty then .ok stage2EmptyDefault
  else if stage1_analysis.is_current_name_appropriate.isNone ||
      stage1_analysis.confidence_in_current.isNone ||
      stage1_analysis.possible_alternatives.isNone ||
      stage1_analysis.reasoning.isNone then
    .error "KeyError: stage-1 key missing during stage-2 prompt construction"
  else
    match call with
    | .error e => .ok (stage2Fallback e)
    | .ok r =>
      if r.confidence_score.isNone || r.recommendation.isNone then
        .ok (stage2Fallback "KeyError")
      else .ok r

/-- Column pair used against the Business Central cache (source lines
289 and 833). -/
def bc_cache_columns : List String :=
  ["CUSTOMER_NAME", "CONTACT"]

/-- Columns of the curated local alias table (source line 288). -/
def local_db_columns : List String :=
  ["SPECIAL NAME BANK IN", "CUSTOMER NAME"]

/-- Source: `src/utils/update_customer_name.py`, lines 31-63,
`get_top_matches_from_bc`: the triple loop collecting every
(search name, row, column, score) with similarity strictly above the 0.4
prefilter.  The subsequent sort / drop-duplicates / head-20 steps are not
modelled: they preserve emptiness, which is the only property the
caller's control flow consumes (the retained rows feed only the stage-2
prompt text). -/
def get_top_matches_all (scorer : String → String → ℚ)
    (possible_names : List String) (bc_df : DFrame)
    (name_columns : List String) : List (String × RowMap × String × ℚ) :=
  possible_names.foldl
    (fun acc possible_name =>
      bc_df.rows.foldl
        (fun acc row =>
          name_columns.foldl
            (fun acc col_name =>
              if bc_df.columns.contains col_name then
                let candidate_name := normalize_customer_name (row col_name)
                if candidate_name = "" then acc
                else
                  let sim_ratio := similarity scorer possible_name candidate_name
                  if sim_ratio > mkRat 2 5 then
                    acc ++ [(possible_name, row, col_name, sim_ratio)]
                  else acc
              else acc)
            acc)
        acc)
    []

/-- Source: `src/utils/update_customer_name.py`, lines 788-872,
`ai_two_stage_matching`.  Returns `(new_customer_name, was_updated,
final_decision)`.  The `description` argument feeds only the prompts.
Accesses of `stage1_result['possible_alternatives']` (line 825) and
`stage2_result['selected_match']` / `...['customer_name']` (lines
853-856) happen outside any `try` block, so a response missing those keys
raises an uncaught `KeyError`, modelled as `.error`. -/
def ai_two_stage_matching (scorer : String → String → ℚ)
    (customer_name description : String) (bc_df : DFrame)
    (stage1Call : Except String Stage1Resp)
    (stage2Call : Except String Stage2Resp) :
    Except String (String × Bool × String) :=
  let stage1_result := stage1_analyze_description stage1Call
  if stage1_result.recommended_action = some "keep_current" then
    .ok (customer_name, false, "kept_current")
  else
    match stage1_result.possible_alternatives with
    | none => .error "KeyError: possible_alternatives"
    | some alts =>
      let possible_names := dedupKeepOrder (customer_name :: alts)
      let top_matches := get_top_matches_all scorer possible_names bc_df bc_cache_columns
      if top_matches.isEmpty then .ok (customer_name, false, "no_matches_found")
      else
        match stage2_score_matches stage1_result false stage2Call with
        | .error e => .error e
        | .ok stage2_result =>
          if stage2_result.recommendation = some "update_customer" ∧
              90 ≤ stage2_result.confidence_score.getD 0 then
            match stage2_result.selected_match with
            | none => .error "KeyError: selected_match"
            | some none => .ok (customer_name, false, "insufficient_confidence")
            | some (some m) =>
              if m.customer_name.isSome || m.otherKeys then
                match m.customer_name with
                | none => .error "KeyError: customer_name"
                | some none => .ok (customer_name, false, "insufficient_confidence")
                | some (some new_name) =>
                  if new_name = "" then .ok (customer_name, false, "insufficient_confidence")
                  else .ok (new_name, true, "updated_customer")
              else .ok (customer_name, false, "insufficient_confidence")
          else .ok (customer_name, false, "insufficient_confidence")

/-- Disposition of one row of `update_customer_name_for_file_dual`
(mirrors the `stats` counters at the point the loop leaves the row). -/
inductive RowOutcome where
  | skippedEmpty
  | localMatch
  | bcMatch
  | aiMatch
  | noMatch
  | aiNoDescription
deriving DecidableEq, Repr

/-- AI-fallback portion of the row loop (source lines 348-392).  The AI
matcher exists only when the BC cache was loaded (lines 264-265 and
276-282 force `use_ai_fallback = False` otherwise), hence the `bc_df`
pattern match. -/
def processRowAIStage (scorer : String → String → ℚ) (bc_df : Option DFrame)
    (aiEnabled : Bool) (stage1Call : Except String Stage1Resp)
    (stage2Call : Except String Stage2Resp) (df_columns : List String)
    (input_customer_name : String) (row : RowMap) :
    Except String (RowMap × RowOutcome) :=
  if aiEnabled then
    match bc_df with
    | some bcdf =>
      let combined := get_description_value_combined row df_columns
      if combined ≠ "" ∧ pyStrip combined ≠ "" then
        match ai_two_stage_matching scorer input_customer_name combined bcdf
            stage1Call stage2Call with
        | .error e => .error e
        | .ok (ai_result, was_updated, _) =>
          if was_updated ∧ ai_result ≠ input_customer_name then
            .ok (rowSet row "CUSTOMER_NAME" (.strV ai_result), .aiMatch)
          else .ok (row, .noMatch)
      else .ok (row, .aiNoDescription)
    | none => .ok (row, .noMatch)
  else .ok (row, .noMatch)

/-- Source: `src/utils/update_customer_name.py`, lines 311-396: the body
of the row loop of `update_customer_name_for_file_dual`.  Stage 1 matches
the local alias table at `local_threshold`; stage 2 the BC cache at
`bc_threshold`; stage 3 the two-stage AI fallback.  The per-row remote
calls are the `stage1Call` / `stage2Call` oracles.  An exception escaping
the AI stage propagates out of the loop (there is no surrounding `try`),
aborting the batch: this is the `.error` case. -/
def processRowDual (scorer : String → String → ℚ) (customer_df : DFrame)
    (bc_df : Option DFrame) (aiEnabled : Bool)
    (stage1Call : Except String Stage1Resp)
    (stage2Call : Except String Stage2Resp) (df_columns : List String)
    (local_threshold bc_threshold : ℚ) (row : RowMap) :
    Except String (RowMap × RowOutcome) :=
  let input_customer_name := normalize_customer_name (row "CUSTOMER_NAME")
  if input_customer_name = "" then .ok (row, .skippedEmpty)
  else
    match (find_best_match_in_dataframe scorer input_customer_name customer_df
        local_db_columns local_threshold).1 with
    | some best_match =>
      .ok (rowSet row "CUSTOMER_NAME"
          (.strV (normalize_customer_name (best_match "CUSTOMER NAME"))),
        .localMatch)
    | none =>
      match bc_df with
      | some bcdf =>
        match (find_best_match_in_dataframe scorer input_customer_name bcdf
            bc_cache_columns bc_threshold).1 with
        | some bc_match =>
          .ok (rowSet row "CUSTOMER_NAME"
              (.strV (normalize_customer_name (bc_match "CUSTOMER_NAME"))),
            .bcMatch)
        | none =>
          processRowAIStage scorer bc_df aiEnabled stage1Call stage2Call
            df_columns input_customer_name row
      | none =>
        processRowAIStage scorer bc_df aiEnabled stage1Call stage2Call
          df_columns input_customer_name row

/-- Similarity oracle: 1 on equal strings, 0 otherwise (agreeing with
`SequenceMatcher.ratio` on equal strings). -/
def indScorer : String → String → ℚ :=
  fun a b => if a = b then 1 else 0

/-- Similarity oracle: 1/2 on equal strings, 0 otherwise. -/
def halfScorer : String → String → ℚ :=
  fun a b => if a = b then mkRat 1 2 else 0

/-- Concrete alias-table row mapping bank wording "FOO" to canonical name
"BAR". -/
def aliasRow : RowMap :=
  fun c =>
    if c = "SPECIAL NAME BANK IN" then Cell.strV "FOO"
    else if c = "CUSTOMER NAME" then Cell.strV "BAR"
    else Cell.nanV

/-- Concrete one-row alias table. -/
def aliasDF : DFrame :=
  ⟨local_db_columns, [aliasRow]⟩

/-- Concrete alias table with no rows. -/
def emptyAliasDF : DFrame :=
  ⟨local_db_columns, []⟩

/-- Concrete BC-cache row for customer "JOHN". -/
def bcRowJohn : RowMap :=
  fun c => if c = "CUSTOMER_NAME" then Cell.strV "JOHN" else Cell.nanV

/-- Concrete one-row BC cache. -/
def bcDFJohn : DFrame :=
  ⟨bc_cache_columns, [bcRowJohn]⟩

/-- Concrete input row: customer "JOHN" with a description. -/
def rowJohn : RowMap :=
  fun c =>
    if c = "CUSTOMER_NAME" then Cell.strV "JOHN"
    else if c = "DESCRIPTION" then Cell.strV "PAYMENT FROM J" else Cell.nanV

/-- Concrete input row with empty (whitespace-only) customer name. -/
def rowBlankName : RowMap :=
  fun c =>
    if c = "CUSTOMER_NAME" then Cell.strV "  "
    else if c = "DESCRIPTION" then Cell.strV "PAYMENT FROM SOMEONE"
    else Cell.nanV

/-- Concrete already-transferred input row with customer name "FOO". -/
def rowFooTransferred : RowMap :=
  fun c =>
    if c = "CUSTOMER_NAME" then Cell.strV "FOO"
    else if c = "STATUS" then Cell.strV "Transferred" else Cell.nanV

/-- Concrete well-formed stage-1 response recommending a search. -/
def s1Alt : Stage1Resp :=
  { analysis := some "alternative names found",
    is_current_name_appropriate := some false,
    confidence_in_current := some 40,
    possible_alternatives := some ["JOHNNY"],
    recommended_action := some "search_alternatives",
    reasoning := some "another name dominates the description" }

/-- Concrete stage-1 response that is valid JSON but lacks the
`possible_alternatives` key. -/
def s1MissingAlts : Stage1Resp :=
  { analysis := some "alternative names found",
    is_current_name_appropriate := some false,
    confidence_in_current := some 40,
    possible_alternatives := none,
    recommended_action := some "search_alternatives",
    reasoning := some "another name dominates the description" }

/-- Concrete stage-2 response recommending an update at confidence 95
whose `selected_match` is JSON `null`. -/
def r2Null : Stage2Resp :=
  { analysis := some "match found",
    selected_match := some none,
    confidence_score := some 95,
    recommendation := some "update_customer" }

/-- Concrete stage-2 response selecting "JOHNNY SMITH" at confidence 95. -/
def r2Update : Stage2Resp :=
  { analysis := some "match found",
    selected_match := some (some ⟨some (some "JOHNNY SMITH"), true⟩),
    confidence_score := some 95,
    recommendation := some "update_customer" }

/-- The customer name the final acceptance test of `ai_two_stage_matching`
extracts from a stage-2 `selected_match` value, when that test treats it
as truthy: `some s` iff the key chain
`selected_match` → `customer_name` yields a non-null, non-empty string. -/
def smName : Option (Option SelectedMatch) → Option String
  | some (some m) =>
    match m.customer_name with
    | some (some s) => if s = "" then none else some s
    | _ => none
  | _ => none

/-- The run of `update_customer_name_for_file_dual` on `row` consults the
stage-2 model call: non-empty normalized name, no local-table match, no
BC-cache match, a usable combined description, a well-formed stage-1
response recommending a search, and a non-empty prefilter candidate set. -/
def reachesStage2 (scorer : String → String → ℚ) (customer_df bcdf : DFrame)
    (stage1Call : Except String Stage1Resp) (df_columns : List String)
    (local_threshold bc_threshold : ℚ) (row : RowMap) : Prop :=
  normalize_customer_name (row "CUSTOMER_NAME") ≠ "" ∧
  (find_best_match_in_dataframe scorer
    (normalize_customer_name (row "CUSTOMER_NAME")) customer_df
    local_db_columns local_threshold).1.isNone ∧
  (find_best_match_in_dataframe scorer
    (normalize_customer_name (row "CUSTOMER_NAME")) bcdf
    bc_cache_columns bc_threshold).1.isNone ∧
  get_description_value_combined row df_columns ≠ "" ∧
  pyStrip (get_description_value_combined row df_columns) ≠ "" ∧
  (stage1_analyze_description stage1Call).recommended_action ≠ some "keep_current" ∧
  (stage1_analyze_description stage1Call).possible_alternatives.isSome ∧
  (stage1_analyze_description stage1Call).is_current_name_appropriate.isSome ∧
  (stage1_analyze_description stage1Call).confidence_in_current.isSome ∧
  (stage1_analyze_description stage1Call).reasoning.isSome ∧
  ¬(get_top_matches_all scorer
      (dedupKeepOrder (normalize_customer_name (row "CUSTOMER_NAME") ::
        (stage1_analyze_description stage1Call).possible_alternatives.getD []))
      bcdf bc_cache_columns).isEmpty

/-- Claim C1 as stated: on every AI-stage run that consults stage 2 and
gets a structured stage-2 response `r`, the row's `CUSTOMER_NAME` is
overwritten if and only if `r` recommends `update_customer` with
confidence at least 90, and for confidence below 90 the name left in the
row is byte-identical to the (normalized) name the stage received. -/
def C1_claim_prop : Prop :=
  ∀ (scorer : String → String → ℚ) (customer_df bcdf : DFrame)
    (stage1Call : Except String Stage1Resp) (r : Stage2Resp)
    (df_columns : List String) (local_threshold bc_threshold : ℚ)
    (row row' : RowMap) (oc : RowOutcome),
    reachesStage2 scorer customer_df bcdf stage1Call df_columns
      local_threshold bc_threshold row →
    r.confidence_score.isSome →
    r.recommendation.isSome →
    processRowDual scorer customer_df (some bcdf) true stage1Call (.ok r)
      df_columns local_threshold bc_threshold row = .ok (row', oc) →
    ((oc = RowOutcome.aiMatch ↔
        (r.recommendation = some "update_customer" ∧
          90 ≤ r.confidence_score.getD 0)) ∧
      (r.confidence_score.getD 0 < 90 →
        row' "CUSTOMER_NAME" =
          Cell.strV (normalize_customer_name (row "CUSTOMER_NAME"))))

/-- Customer record assembled by `get_customer_info` (source lines
66-71). -/
structure CustomerInfo where
  customerId : String
  customerNumber : String
  customerName : String
  blocked : Bool
deriving DecidableEq, Repr

/-- Python truthiness of a cell (`bool(float('nan'))` is `True`). -/
def cellTruthy : Cell → Bool
  | .noneV => false
  | .nanV => true
  | .strV s => s ≠ ""

/-- Source: `src/core/MY_mbb_create_pymt.py`, lines 78-161: the body of
the payment-creation row loop.  External effects are oracles: `lookup`
models `bc_client.get_customer_info`, `creditParse` models
`float(row['Credit'])` (`none` when it raises), `createPayment` models
`bc_client.create_customer_journal_line` (`none` on failure).  The
payment payload itself is sent to the external service and does not
affect the row beyond the branches below. -/
def mbbPaymentProcessRow (lookup : Cell → Option CustomerInfo)
    (creditParse : Cell → Option ℚ) (createPayment : Option String)
    (row : RowMap) : RowMap :=
  if row "STATUS" = Cell.strV "Transferred" then row
  else
    let name := row "CUSTOMER_NAME"
    if cellIsNa name || pyStrip (pyStr name) = "" then
      rowSet row "REMARKS" (.strV "Missing customer name")
    else
      match lookup name with
      | none => rowSet row "REMARKS" (.strV "Customer not found")
      | some _ =>
        match creditParse (row "Credit") with
        | none =>
          rowSet row "REMARKS"
            (.strV ("Invalid Credit Amount '" ++ pyStr (row "Credit") ++ "'"))
        | some _ =>
          if !cellTruthy (row "FormattedDate") then
            rowSet row "REMARKS" (.strV "Missing formatted date")
          else
            match createPayment with
            | some payment_id =>
              rowSet (rowSet (rowSet row "STATUS" (.strV "Transferred"))
                "payment_ID" (.strV payment_id)) "REMARKS" (.strV "")
            | none => rowSet row "REMARKS" (.strV "Payment creation failed")

/-- Claim C6 as stated: a row with `STATUS = "Transferred"` is skipped
and left entirely unchanged both by the payment-creation step and by the
reconciliation pass. -/
def C6_claim_prop : Prop :=
  (∀ (lookup : Cell → Option CustomerInfo) (creditParse : Cell → Option ℚ)
      (createPayment : Option String) (row : RowMap),
    row "STATUS" = Cell.strV "Transferred" →
    mbbPaymentProcessRow lookup creditParse createPayment row = row) ∧
  (∀ (scorer : String → String → ℚ) (customer_df : DFrame)
      (bc_df : Option DFrame) (aiEnabled : Bool)
      (stage1Call : Except String Stage1Resp)
      (stage2Call : Except String Stage2Resp) (df_columns : List String)
      (local_threshold bc_threshold : ℚ) (row row' : RowMap)
      (oc : RowOutcome),
    row "STATUS" = Cell.strV "Transferred" →
    processRowDual scorer customer_df bc_df aiEnabled stage1Call stage2Call
      df_columns local_threshold bc_threshold row = .ok (row', oc) →
    row' = row)


/-- Match of the regex `PTE\\s*LTD` at the head of a character list:
literal "PTE", a maximal whitespace run, literal "LTD".  Returns the
matched length. -/
def matchPteLtdAt (l : List Char) : Option Nat :=
  if "PTE".toList.isPrefixOf l then
    let rest := l.drop 3
    let w := (rest.takeWhile isPySpace).length
    if "LTD".toList.isPrefixOf (rest.drop w) then some (3 + w + 3) else none
  else none

/-- Helper for `subPteLtd`: fuel-structural scan (each step consumes at
least one character). -/
def subPteLtdAux : Nat → List Char → List Char
  | 0, l => l
  | _ + 1, [] => []
  | fuel + 1, c :: t =>
    match matchPteLtdAt (c :: t) with
    | some k => "PTE LTD".toList ++ subPteLtdAux fuel ((c :: t).drop k)
    | none => c :: subPteLtdAux fuel t

/-- Python `re.sub(r'PTE\\s*LTD', 'PTE LTD', s)` (source:
`src/parser/sg_mbb_txn_parser.py`), left-to-right non-overlapping. -/
def subPteLtd (s : String) : String :=
  ⟨subPteLtdAux s.toList.length s.toList⟩

/-- Python `s.split(sep, 1)`: the part before the first occurrence of
`sep` and, when `sep` occurs, the rest after it. -/
def splitFirst (sep s : String) : String × Option String :=
  match pyFind sep s with
  | none => (s, none)
  | some i => (strTake s i, some (strDrop s (i + strLen sep)))

/-- Source: `src/parser/sg_mbb_txn_parser.py`, lines 80-110,
`process_inward_fast_transaction`: split at the first `", "`, clean the
name (drop periods, normalize `PTE LTD`, append `" LTD"` after a bare
`" PTE"`). -/
def process_inward_fast_transaction (txn_desc : String) : String × String :=
  let remaining := strDrop txn_desc (strLen "Inward FAST - ")
  let parts := splitFirst ", " remaining
  let customer_name := pyReplace parts.1 "." ""
  let customer_name := subPteLtd customer_name
  let description :=
    match parts.2 with
    | some d => pyStrip d
    | none => ""
  let customer_name :=
    if pyEndsWith " PTE" customer_name then customer_name ++ " LTD"
    else customer_name
  (customer_name, description)

/-- The SG MBB code patterns signalling the start of a description
(source lines 121 and 171). -/
def paynowPatterns : List String :=
  ["BEXP-", "IVPT-", "OTHR-", "GDDS-", "SUPP-"]

/-- The SG MBB month keywords probed when no code pattern matched
(source line 136). -/
def paynowMonthKeywords : List String :=
  ["February", "March", "April", "May", "June", "July", "August",
   "September", "October", "November", "December", "Jan", "Feb", "Mar",
   "Apr", "May", "Jun", "Jul", "Aug", "Sep", "Oct", "Nov", "Dec"]

/-- The `for pattern in patterns: ... break` loop of the SG MBB parser:
the first pattern IN LIST ORDER that occurs anywhere yields the index of
its first occurrence. -/
def firstFoundIdx : List String → String → Option Nat
  | [], _ => none
  | p :: rest, s =>
    match pyFind p s with
    | some i => some i
    | none => firstFoundIdx rest s

/-- Name cleanup shared by the tail of
`process_inward_paynow_transaction` (source lines 149-158): drop periods,
normalize `PTE LTD`, and append `" LTD"` after a bare `" PTE"` unless the
name is the special case `"MOOD COLLECTIVES PTE"`. -/
def paynowNamePost (customer_name : String) : String :=
  let c1 := pyReplace customer_name "." ""
  let c2 := subPteLtd c1
  if pyEndsWith " PTE" c2 ∧ c2 ∉ ["MOOD COLLECTIVES PTE"] then c2 ++ " LTD"
  else c2

/-- Source: `src/parser/sg_mbb_txn_parser.py`, lines 112-160,
`process_inward_paynow_transaction`.  The split marker is chosen by list
order (`break` on the first pattern found anywhere), falling back to the
month-keyword list, else the whole remainder is the name. -/
def process_inward_paynow_transaction (txn_desc : String) : String × String :=
  let remaining := strDrop txn_desc (strLen "Inward PayNow from ")
  let split :=
    match firstFoundIdx paynowPatterns remaining with
    | some i => (pyStrip (strTake remaining i), pyStrip (strDrop remaining i))
    | none =>
      match firstFoundIdx (paynowMonthKeywords.map (fun k => " " ++ k))
          remaining with
      | some i => (pyStrip (strTake remaining i), pyStrip (strDrop remaining i))
      | none => (pyStrip remaining, "")
  (paynowNamePost split.1, split.2)

/-- Source: `src/parser/sg_mbb_txn_parser.py`, lines 162-198,
`process_giro_credit_transaction` (same pattern scan; cleanup order is
periods, `" PTE"` suffix, then the `PTE LTD` normalization). -/
def process_giro_credit_transaction (txn_desc : String) : String × String :=
  let remaining := strDrop txn_desc (strLen "Giro Credit from ")
  let split :=
    match firstFoundIdx paynowPatterns remaining with
    | some i => (pyStrip (strTake remaining i), pyStrip (strDrop remaining i))
    | none => (pyStrip remaining, "")
  let customer_name := pyReplace split.1 "." ""
  let customer_name :=
    if pyEndsWith " PTE" customer_name then customer_name ++ " LTD"
    else customer_name
  (subPteLtd customer_name, split.2)

/-- Source: `src/parser/sg_mbb_txn_parser.py`, lines 200-220,
`process_ib_transfer_transaction`. -/
def process_ib_transfer_transaction (txn_desc : String) : String × String :=
  let customer_name := pyStrip (strDrop txn_desc (strLen "IB Transfer from "))
  let customer_name := pyReplace customer_name "." ""
  let customer_name :=
    if pyEndsWith " P" customer_name then customer_name
    else if pyEndsWith " PTE" customer_name then customer_name ++ " LTD"
    else customer_name
  (subPteLtd customer_name, "")

/-- Source: `src/parser/sg_mbb_txn_parser.py`, lines 232-257,
`extract_transaction_info`: dispatch on the recognized prefix after
stripping; unrecognized, empty, `None` and NaN inputs yield `("", "")`.
The final cleanup strips the name and the description
(`clean_description` for SG is `str(...).strip()`). -/
def sg_extract_transaction_info (txn_desc : Cell) : String × String :=
  if !cellTruthy txn_desc || cellIsNa txn_desc then ("", "")
  else
    let s := pyStrip (pyStr txn_desc)
    let parsed :=
      if pyStartsWith "Inward FAST - " s then
        some (process_inward_fast_transaction s)
      else if pyStartsWith "Inward PayNow from " s then
        some (process_inward_paynow_transaction s)
      else if pyStartsWith "Giro Credit from " s then
        some (process_giro_credit_transaction s)
      else if pyStartsWith "IB Transfer from " s then
        some (process_ib_transfer_transaction s)
      else none
    match parsed with
    | none => ("", "")
    | some (customer_name, description) =>
      (pyStrip customer_name, pyStrip description)

/-- The PBB DuitNow description-start markers (source:
`src/parser/pbb_txn_parser.py`, lines 123-126). -/
def duitnowMarkers : List String :=
  ["Fund transfer", "PV-", "SO", "INV", "BINVOICE", "Statement",
   "Payment for", "TOP UP", "paym", "invoice", "Sent", "Jotex", "Bill",
   "PS", "PO", "Doc"]

/-- Python full `s.split(sep)` restricted to `parts[1]`: the segment
after the first occurrence of `sep` up to its next occurrence (`none`
when `sep` does not occur, i.e. `len(parts) <= 1`). -/
def pySplitPart1 (sep s : String) : Option String :=
  match pyFind sep s with
  | none => none
  | some i =>
    let rest := strDrop s (i + strLen sep)
    match pyFind sep rest with
    | none => some rest
    | some j => some (strTake rest j)

/-- Python `re.match(r'^\\d+\\s+', s)`: a non-empty leading digit run
followed by a non-empty whitespace run; returns the matched length. -/
def matchDigitsWs (s : String) : Option Nat :=
  let l := s.toList
  let d := (l.takeWhile Char.isDigit).length
  if d = 0 then none
  else
    let w := ((l.drop d).takeWhile isPySpace).length
    if w = 0 then none else some (d + w)

/-- The DuitNow marker scan (source lines 128-132): fold over the marker
list keeping the smallest first-occurrence index that is strictly
positive, starting from the remainder's length. -/
def duitnowScan (markers : List String) (after_number : String) : Nat :=
  markers.foldl
    (fun acc marker =>
      match pyFind marker after_number with
      | some idx => if 0 < idx ∧ idx < acc then idx else acc
      | none => acc)
    (strLen after_number)

/-- Source: `src/parser/pbb_txn_parser.py`, lines 99-141,
`process_duitnow_transaction`. -/
def process_duitnow_transaction (txn_desc : String) : String × String :=
  match pySplitPart1 "DUITNOW TRSF CR - NO: " txn_desc with
  | none => ("", "")
  | some after_no =>
    match matchDigitsWs after_no with
    | none => (pyStrip after_no, "")
    | some k =>
      let after_number := strDrop after_no k
      match pyFind "CUSTOMIND DESIGN" after_number with
      | some i =>
        ("CUSTOMIND DESIGN",
          pyStrip (strDrop after_number (i + strLen "CUSTOMIND DESIGN")))
      | none =>
        let desc_start_idx := duitnowScan duitnowMarkers after_number
        if desc_start_idx < strLen after_number then
          (pyStrip (strTake after_number desc_start_idx),
            pyStrip (strDrop after_number desc_start_idx))
        else (pyStrip after_number, "")

/-- The split index the claim's tie-break rule predicts: the minimum over
all markers of the index of the marker's first occurrence. -/
def earliestMarkerIdx (markers : List String) (s : String) : Option Nat :=
  markers.foldl
    (fun acc m =>
      match pyFind m s, acc with
      | some i, some j => some (min i j)
      | some i, none => some i
      | none, acc => acc)
    none

/-- Claim C5 as stated: both for the PBB DuitNow profile and for the SG
MBB Inward-PayNow profile, when markers occur in the remainder, the split
point is the lowest first-occurrence index among all the profile's
markers (earliest occurrence in the text, not first marker in the marker
list). -/
def C5_claim_prop : Prop :=
  (∀ (txn_desc after_no : String) (k : Nat),
    pySplitPart1 "DUITNOW TRSF CR - NO: " txn_desc = some after_no →
    matchDigitsWs after_no = some k →
    pyFind "CUSTOMIND DESIGN" (strDrop after_no k) = none →
    ∀ i, earliestMarkerIdx duitnowMarkers (strDrop after_no k) = some i →
      i < strLen (strDrop after_no k) →
      process_duitnow_transaction txn_desc =
        (pyStrip (strTake (strDrop after_no k) i),
          pyStrip (strDrop (strDrop after_no k) i))) ∧
  (∀ (txn_desc remaining : String),
    pyStartsWith "Inward PayNow from " txn_desc →
    remaining = strDrop txn_desc (strLen "Inward PayNow from ") →
    ∀ i, earliestMarkerIdx paynowPatterns remaining = some i →
      process_inward_paynow_transaction txn_desc =
        (paynowNamePost (pyStrip (strTake remaining i)),
          pyStrip (strDrop remaining i)))


/-- Leftmost index whose suffix satisfies `p` (regex search scan). -/
def leftmostIdx (p : List Char → Bool) : List Char → Nat → Option Nat
  | [], _ => none
  | c :: t, i => if p (c :: t) then some i else leftmostIdx p t (i + 1)

/-- Whether `.*$` can cover `rest` in Python `re` semantics: `.` does not
match a newline and `$` matches at the end of the string or just before a
single trailing newline. -/
def dotStarDollarOk (rest : List Char) : Bool :=
  !rest.contains '\n' ||
    (rest.getLast? = some '\n' && !rest.dropLast.contains '\n')

/-- The characters a match ending in `.*$` covers: everything except a
single trailing newline. -/
def toDollar (l : List Char) : List Char :=
  if l.getLast? = some '\n' then l.dropLast else l

/-- Per-position test for `re.search(r'\s+(\d{8,}.*$)', name)`: a
whitespace run, at least eight digits, then `.*$`. -/
def wsDigits8At (l : List Char) : Bool :=
  match l with
  | [] => false
  | c :: _ =>
    isPySpace c &&
      (let afterWs := l.dropWhile isPySpace
       let d := (afterWs.takeWhile Char.isDigit).length
       8 ≤ d && dotStarDollarOk (afterWs.drop d))

/-- `re.search(r'\s+(\d{8,}.*$)', s)`: leftmost match start and
`group(1)`. -/
def searchLongDigits (s : String) : Option (Nat × String) :=
  match leftmostIdx wsDigits8At s.toList 0 with
  | none => none
  | some i =>
    let suf := s.toList.drop i
    some (i, ⟨toDollar (suf.dropWhile isPySpace)⟩)

/-- Per-position test for `re.search(r'\s+([A-Z]{2,3}[-\d]+.*$)', name)`.
The greedy 2-or-3 upper-case counter cannot backtrack into a digit or
dash, so exactly a maximal run of two or three capitals works. -/
def wsUpperRefAt (l : List Char) : Bool :=
  match l with
  | [] => false
  | c :: _ =>
    isPySpace c &&
      (let r := l.dropWhile isPySpace
       let u := (r.takeWhile (fun d => 'A' ≤ d && d ≤ 'Z')).length
       (u = 2 || u = 3) &&
         (let r2 := r.drop u
          let m := (r2.takeWhile (fun d => d = '-' || d.isDigit)).length
          1 ≤ m && dotStarDollarOk (r2.drop m)))

/-- `re.search(r'\s+([A-Z]{2,3}[-\d]+.*$)', s)`: leftmost start and
`group(1)`. -/
def searchUpperRef (s : String) : Option (Nat × String) :=
  match leftmostIdx wsUpperRefAt s.toList 0 with
  | none => none
  | some i =>
    let suf := s.toList.drop i
    some (i, ⟨toDollar (suf.dropWhile isPySpace)⟩)

/-- Lower-cased three-letter month tokens of the date pattern. -/
def monthTokens : List String :=
  ["jan", "feb", "mar", "apr", "may", "jun", "jul", "aug", "sep", "oct",
   "nov", "dec"]

/-- Per-position test for
`re.search(r'\s+(?:Jan|...|Dec)\s+\d{2}.*$', name, re.IGNORECASE)`. -/
def wsMonthAt (l : List Char) : Bool :=
  match l with
  | [] => false
  | c :: _ =>
    isPySpace c &&
      (let r := l.dropWhile isPySpace
       monthTokens.contains ⟨(r.take 3).map Char.toLower⟩ &&
         (let r2 := r.drop 3
          let w2 := (r2.takeWhile isPySpace).length
          1 ≤ w2 &&
            (let r3 := r2.drop w2
             2 ≤ (r3.takeWhile Char.isDigit).length &&
               dotStarDollarOk (r3.drop 2))))

/-- The month-date search: leftmost start and `group(0)` (which includes
the leading whitespace). -/
def searchMonthDate (s : String) : Option (Nat × String) :=
  match leftmostIdx wsMonthAt s.toList 0 with
  | none => none
  | some i => some (i, ⟨toDollar (s.toList.drop i)⟩)

/-- Per-position test for `re.search(r'\s+(20\d{2}).*$', name)`. -/
def wsYearAt (l : List Char) : Bool :=
  match l with
  | [] => false
  | c :: _ =>
    isPySpace c &&
      (match l.dropWhile isPySpace with
       | '2' :: '0' :: d1 :: d2 :: rest =>
         d1.isDigit && d2.isDigit && dotStarDollarOk rest
       | _ => false)

/-- The year search: leftmost start and `group(1)` (the four digits). -/
def searchYear (s : String) : Option (Nat × String) :=
  match leftmostIdx wsYearAt s.toList 0 with
  | none => none
  | some i => some (i, ⟨(s.toList.drop i).dropWhile isPySpace |>.take 4⟩)

/-- Match of `SDN\.\s*BHD\.?` at the head of a list: literal "SDN.", a
maximal whitespace run, literal "BHD", and a greedy optional period.
Returns the matched length. -/
def matchSdnBhdAt (l : List Char) : Option Nat :=
  if "SDN.".toList.isPrefixOf l then
    let rest := l.drop 4
    let w := (rest.takeWhile isPySpace).length
    let rest2 := rest.drop w
    if "BHD".toList.isPrefixOf rest2 then
      some (4 + w + 3 + (if (rest2.drop 3).head? = some '.' then 1 else 0))
    else none
  else none

/-- Helper for `subSdnBhd` (fuel-structural scan). -/
def subSdnBhdAux : Nat → List Char → List Char
  | 0, l => l
  | _ + 1, [] => []
  | fuel + 1, c :: t =>
    match matchSdnBhdAt (c :: t) with
    | some k => "SDN BHD".toList ++ subSdnBhdAux fuel ((c :: t).drop k)
    | none => c :: subSdnBhdAux fuel t

/-- Python `re.sub(r'SDN\.\s*BHD\.?', 'SDN BHD', s)`. -/
def subSdnBhd (s : String) : String :=
  ⟨subSdnBhdAux s.toList.length s.toList⟩

/-- Python `s.rstrip('.')`. -/
def rstripDots (s : String) : String :=
  ⟨(s.toList.reverse.dropWhile (fun c => c = '.')).reverse⟩

/-- Source: `src/parser/pbb_txn_parser.py`, lines 24-76,
`clean_customer_name`: the ordered rewrite steps (strip, trailing-period
removal, `SDN BHD` normalization, `SB` removal, then four extractions
into `extra_info`, then removal of a repeated company name). -/
def clean_customer_name (name : String) : String × String :=
  if name = "" then ("", "")
  else
    let name := pyStrip name
    let name := rstripDots name
    let name := subSdnBhd name
    let name :=
      if pyEndsWith "SB" name then pyStrip (pyReplace name "SB" "") else name
    let (name, extra_info) :=
      match searchLongDigits name with
      | some (i, g) => (pyStrip (strTake name i), pyStrip g)
      | none => (name, "")
    let (name, extra_info) :=
      match searchUpperRef name with
      | some (i, g) =>
        (pyStrip (strTake name i), pyStrip (extra_info ++ " " ++ g))
      | none => (name, extra_info)
    let (name, extra_info) :=
      match searchMonthDate name with
      | some (i, g) =>
        (pyStrip (strTake name i), pyStrip (extra_info ++ " " ++ g))
      | none => (name, extra_info)
    let (name, extra_info) :=
      match searchYear name with
      | some (i, g) =>
        (pyStrip (strTake name i), pyStrip (extra_info ++ " " ++ g))
      | none => (name, extra_info)
    let words := pySplitWs name
    let (name, extra_info) :=
      if 3 < words.length then
        let company := pyLower (pyJoin " " (words.take 3))
        let remaining := pyLower (pyJoin " " (words.drop 3))
        if pyStartsWith company remaining then
          (pyJoin " " (words.take 3),
            pyStrip (extra_info ++ " " ++ pyJoin " " (words.drop 3)))
        else (name, extra_info)
      else (name, extra_info)
    (pyStrip name, pyStrip extra_info)

/-- Python `s.split(sep, maxsplit)` (single-character or literal
separator, empty fields kept). -/
def pySplitSepMax (sep : String) : Nat → String → List String
  | 0, s => [s]
  | m + 1, s =>
    match pyFind sep s with
    | none => [s]
    | some i => strTake s i :: pySplitSepMax sep m (strDrop s (i + strLen sep))

/-- Source: `src/parser/pbb_txn_parser.py`, lines 78-97,
`clean_description`. -/
def clean_description_pbb (description : String) : String :=
  if description = "" then ""
  else
    let d := pyStrip description
    if d = "Fund transfer" then ""
    else
      let d2 :=
        if pyStartsWith "Fund transfer " d then
          pyStrip (strDrop d (strLen "Fund transfer "))
        else if pyStartsWith "Sent from " d then
          let parts := pySplitSepMax " " 3 d
          if 4 ≤ parts.length then pyStrip (parts.getD 3 "")
          else if 3 ≤ parts.length then pyStrip (parts.getD 2 "")
          else d
        else d
      pyUpper d2

/-- Match of `re.match(r'^\d+\s+XXXXXX\d+\s+', s)` (source line 153):
digits, whitespace, literal "XXXXXX", digits, whitespace; returns the
matched length. -/
def matchTsfrHead (s : String) : Option Nat :=
  let l := s.toList
  let d1 := (l.takeWhile Char.isDigit).length
  if d1 = 0 then none
  else
    let r1 := l.drop d1
    let w1 := (r1.takeWhile isPySpace).length
    if w1 = 0 then none
    else
      let r2 := r1.drop w1
      if "XXXXXX".toList.isPrefixOf r2 then
        let r3 := r2.drop 6
        let d2 := (r3.takeWhile Char.isDigit).length
        if d2 = 0 then none
        else
          let r4 := r3.drop d2
          let w2 := (r4.takeWhile isPySpace).length
          if w2 = 0 then none else some (d1 + w1 + 6 + d2 + w2)
      else none

/-- Per-position test for `re.search(r'\s+\d{minD,}', s)`. -/
def wsDigitsMinAt (minD : Nat) (l : List Char) : Bool :=
  match l with
  | [] => false
  | c :: _ =>
    isPySpace c &&
      minD ≤ ((l.dropWhile isPySpace).takeWhile Char.isDigit).length

/-- `re.search(r'\s+\d{minD,}', s)`: leftmost match start. -/
def searchWsDigitsMin (minD : Nat) (s : String) : Option Nat :=
  leftmostIdx (wsDigitsMinAt minD) s.toList 0

/-- The TSFR FUND description markers (source lines 160-163). -/
def tsfrMarkers : List String :=
  ["Fund transfer", "PV-", "SO", "INV", "BINVOICE", "Statement",
   "Payment for", "TOP UP", "paym", "invoice", "Sent", "Jotex"]

/-- Source: `src/parser/pbb_txn_parser.py`, lines 143-192,
`process_tsfr_fund_transaction`. -/
def process_tsfr_fund_transaction (txn_desc : String) : String × String :=
  match pySplitPart1 "TSFR FUND CR-ATM/EFT - NO: " txn_desc with
  | none => ("", "")
  | some after_no =>
    match matchTsfrHead after_no with
    | none => (pyStrip after_no, "")
    | some k =>
      let after_account := strDrop after_no k
      let d0 := duitnowScan tsfrMarkers after_account
      let d1 :=
        match searchWsDigitsMin 4 after_account with
        | some n => if n < d0 then n else d0
        | none => d0
      let words := pySplitWs after_account
      let d2 :=
        match words.getLast? with
        | some lastw =>
          if 1 < words.length ∧ strLen lastw < 5 then
            match pyRfind (" " ++ lastw) after_account with
            | some lidx => if 0 < lidx ∧ lidx < d1 then lidx else d1
            | none => d1
          else d1
        | none => d1
      if d2 < strLen after_account then
        (pyStrip (strTake after_account d2), pyStrip (strDrop after_account d2))
      else (pyStrip after_account, "")

/-- Characters of the lazy group `[A-Z0-9\s&.]` of the DEP-ECP pattern. -/
def depEcpClassChar (c : Char) : Bool :=
  ('A' ≤ c && c ≤ 'Z') || c.isDigit || isPySpace c || c = '&' || c = '.'

/-- Whether one of the alternatives `CIM|HLB|MBB|CIMB|RHB|PBB|[0-9]`
matches at the head of `l`. -/
def depEcpAlt (l : List Char) : Bool :=
  "CIM".toList.isPrefixOf l || "HLB".toList.isPrefixOf l ||
    "MBB".toList.isPrefixOf l || "RHB".toList.isPrefixOf l ||
    "PBB".toList.isPrefixOf l ||
    (match l.head? with
     | some c => c.isDigit
     | none => false)

/-- Whether the pattern tail `(?:\s+)(CIM|...)` matches at the head of
`rem` (a non-empty whitespace run, then an alternative). -/
def depEcpCloseAt (rem : List Char) : Bool :=
  match rem with
  | c :: _ => isPySpace c && depEcpAlt (rem.dropWhile isPySpace)
  | [] => false

/-- Lazy expansion of the DEP-ECP name group: consume class characters
one at a time (at least one beyond the leading capital), stopping at the
first position where the pattern tail matches. -/
def depEcpGroup1Go : Nat → List Char → List Char → Option (List Char)
  | 0, _, _ => none
  | fuel + 1, rem, acc =>
    match rem with
    | [] => none
    | c :: t =>
      if depEcpClassChar c then
        if depEcpCloseAt t then some (c :: acc).reverse
        else depEcpGroup1Go fuel t (c :: acc)
      else none

/-- Match of
`re.search(r'^\d+\s+IMEPS\d+\s+([A-Z][A-Z0-9\s&.]+?)(?:\s+)(CIM|HLB|MBB|CIMB|RHB|PBB|[0-9])', after_no)`
(source line 206); returns `group(1)`. -/
def depEcpMainMatch (after_no : String) : Option String :=
  let l := after_no.toList
  let d1 := (l.takeWhile Char.isDigit).length
  if d1 = 0 then none
  else
    let r1 := l.drop d1
    let w1 := (r1.takeWhile isPySpace).length
    if w1 = 0 then none
    else
      let r2 := r1.drop w1
      if "IMEPS".toList.isPrefixOf r2 then
        let r3 := r2.drop 5
        let d2 := (r3.takeWhile Char.isDigit).length
        if d2 = 0 then none
        else
          let r4 := r3.drop d2
          let w2 := (r4.takeWhile isPySpace).length
          if w2 = 0 then none
          else
            match r4.drop w2 with
            | [] => none
            | c :: t =>
              if 'A' ≤ c && c ≤ 'Z' then
                (depEcpGroup1Go t.length t [c]).map (fun g => (⟨g⟩ : String))
              else none
      else none

/-- The DEP-ECP fallback bank indicators (source line 216). -/
def depEcpBankIndicators : List String :=
  ["CIM", "HLB", "MBB", "CIMB", "RHB", "PBB"]

/-- Per-position test for `re.search(r'\s+\d{4}[\s-]\d{4}', s)` (source
line 225): whitespace run, exactly four digits, a whitespace or dash,
four more digits. -/
def wsD4SepD4At (l : List Char) : Bool :=
  match l with
  | [] => false
  | c :: _ =>
    isPySpace c &&
      (match l.dropWhile isPySpace with
       | a :: b :: c2 :: d :: e :: f :: g :: h :: i :: _ =>
         a.isDigit && b.isDigit && c2.isDigit && d.isDigit &&
           !e.isDigit && (isPySpace e || e = '-') &&
           f.isDigit && g.isDigit && h.isDigit && i.isDigit
       | _ => false)

/-- `re.search(r'\s+\d{4}[\s-]\d{4}', s)`: leftmost match start. -/
def searchWsD4SepD4 (s : String) : Option Nat :=
  leftmostIdx wsD4SepD4At s.toList 0

/-- Python `str.isupper()` (ASCII fragment): at least one letter and no
lowercase letter. -/
def pyIsUpper (w : String) : Bool :=
  w.toList.any Char.isAlpha && w.toList.all (fun c => !c.isLower)

/-- The DEP-ECP last-resort scan for the first all-caps word at index
greater than 1 with more than two characters (source lines 236-242). -/
def findCapIdx : List String → Nat → Option Nat
  | [], _ => none
  | w :: t, i =>
    if 2 < strLen w ∧ pyIsUpper w ∧ 1 < i then some i
    else findCapIdx t (i + 1)

/-- The scan for the end of the company-name word run (source lines
245-249): the first subsequent word that is not upper-case or contains a
bank indicator. -/
def findCompanyEnd : List String → Nat → Option Nat
  | [], _ => none
  | w :: t, i =>
    if !pyIsUpper w ∨ depEcpBankIndicators.any (fun b => (pyFind b w).isSome)
    then some i
    else findCompanyEnd t (i + 1)

/-- Source: `src/parser/pbb_txn_parser.py`, lines 194-258,
`process_dep_ecp_transaction`. -/
def process_dep_ecp_transaction (txn_desc : String) : String × String :=
  match pySplitPart1 "DEP-ECP - NO: " txn_desc with
  | none => ("", "")
  | some after_no =>
    match depEcpMainMatch after_no with
    | some g1 =>
      let description_start := (pyFind g1 after_no).getD 0 + strLen g1
      (pyStrip g1, pyStrip (strDrop after_no description_start))
    | none =>
      let d0 := depEcpBankIndicators.foldl
        (fun acc bank =>
          match pyFind bank after_no with
          | some bank_idx =>
            if 10 < bank_idx ∧ bank_idx < acc then bank_idx else acc
          | none => acc)
        (strLen after_no)
      let d1 :=
        match searchWsD4SepD4 after_no with
        | some n => if n < d0 then n else d0
        | none => d0
      if d1 < strLen after_no ∧ 10 < d1 then
        (pyStrip (strTake after_no d1), pyStrip (strDrop after_no d1))
      else
        let words := pySplitWs after_no
        match findCapIdx words 0 with
        | none => ("", "")
        | some cap =>
          match findCompanyEnd (words.drop (cap + 1)) (cap + 1) with
          | some cend =>
            (pyJoin " " ((words.drop cap).take (cend - cap)),
              pyJoin " " (words.drop cend))
          | none =>
            (words.getD cap "", pyJoin " " (words.drop (cap + 1)))

/-- Whether the anchored suffix pattern `(\s+\([^)]+\))$` matches at the
head of `rem` and covers all of it: a whitespace run, an opening
parenthesis, at least one non-`)` character, a closing parenthesis at the
very end. -/
def cheqParenAt (rem : List Char) : Bool :=
  match rem with
  | [] => false
  | c :: _ =>
    isPySpace c &&
      (match rem.dropWhile isPySpace with
       | '(' :: body =>
         match body.getLast? with
         | some ')' => !body.dropLast.contains ')' && body.dropLast ≠ []
         | _ => false
       | _ => false)

/-- The split of `re.search(r'^(.*?)(\s+\([^)]+\))$', after_asterisk)`:
the lazy prefix takes the least split point whose suffix is the
parenthesized tail; the prefix cannot cross a newline. -/
def cheqParenSplitAux : List Char → List Char → Option (String × String)
  | rem, acc =>
    if cheqParenAt rem then some (⟨acc.reverse⟩, ⟨rem⟩)
    else
      match rem with
      | [] => none
      | c :: t =>
        if c = '\n' then none else cheqParenSplitAux t (c :: acc)

/-- The parenthesized-date split applied to a whole string. -/
def cheqParenSplit (s : String) : Option (String × String) :=
  cheqParenSplitAux s.toList []

/-- Source: `src/parser/pbb_txn_parser.py`, lines 260-290,
`process_cheq_transaction`. -/
def process_cheq_transaction (txn_desc : String) : String × String :=
  let cheq_type :=
    if (pyFind "DEP-LOC CHEQ - NO:" txn_desc).isSome then
      "DEP-LOC CHEQ - NO:"
    else "DEP-HSE CHEQ - NO:"
  match pySplitPart1 cheq_type txn_desc with
  | none => ("", "")
  | some p1 =>
    let after_no := pyStrip p1
    match pyFind "*" after_no with
    | none => ("", "")
    | some asterisk_idx =>
      let after_asterisk := pyStrip (strDrop after_no (asterisk_idx + 1))
      match cheqParenSplit after_asterisk with
      | some (g1, g2) => (pyStrip g1, pyStrip g2)
      | none => (after_asterisk, "")

/-- Source: `src/parser/pbb_txn_parser.py`, lines 292-320,
`extract_transaction_info`: dispatch on the contained transaction-type
marker; unrecognized, empty, `None` and NaN inputs yield `("", "")`; the
extracted pair is post-processed by `clean_customer_name` and
`clean_description`. -/
def pbb_extract_transaction_info (txn_desc : Cell) : String × String :=
  if !cellTruthy txn_desc || cellIsNa txn_desc then ("", "")
  else
    let s := pyStr txn_desc
    let parsed :=
      if (pyFind "DUITNOW TRSF CR - NO:" s).isSome then
        some (process_duitnow_transaction s)
      else if (pyFind "TSFR FUND CR-ATM/EFT - NO:" s).isSome then
        some (process_tsfr_fund_transaction s)
      else if (pyFind "DEP-ECP - NO:" s).isSome then
        some (process_dep_ecp_transaction s)
      else if (pyFind "DEP-LOC CHEQ - NO:" s).isSome ||
          (pyFind "DEP-HSE CHEQ - NO:" s).isSome then
        some (process_cheq_transaction s)
      else none
    match parsed with
    | none => ("", "")
    | some (customer_name, description) =>
      let (clean_name, extra_info) := clean_customer_name customer_name
      let description :=
        if extra_info ≠ "" then pyStrip (extra_info ++ " " ++ description)
        else description
      (clean_name, clean_description_pbb description)

/-- Whether a PBB description contains one of the four recognized
transaction-type markers. -/
def pbbRecognized (s : String) : Bool :=
  (pyFind "DUITNOW TRSF CR - NO:" s).isSome ||
    (pyFind "TSFR FUND CR-ATM/EFT - NO:" s).isSome ||
    (pyFind "DEP-ECP - NO:" s).isSome ||
    (pyFind "DEP-LOC CHEQ - NO:" s).isSome ||
    (pyFind "DEP-HSE CHEQ - NO:" s).isSome

/-- Whether a (stripped) SG MBB description starts with one of the four
recognized prefixes. -/
def sgRecognized (s : String) : Bool :=
  pyStartsWith "Inward FAST - " s || pyStartsWith "Inward PayNow from " s ||
    pyStartsWith "Giro Credit from " s || pyStartsWith "IB Transfer from " s

/-- Malformed input for the PBB extractor: `None`, NaN, the empty string,
or a string containing no recognized marker. -/
def cellMalformedPbb : Cell → Bool
  | .noneV => true
  | .nanV => true
  | .strV s => s = "" || !pbbRecognized s

/-- Malformed input for the SG MBB extractor: `None`, NaN, the empty
string, or a string whose stripped form starts with no recognized
prefix. -/
def cellMalformedSg : Cell → Bool
  | .noneV => true
  | .nanV => true
  | .strV s => s = "" || !sgRecognized (pyStrip s)


/-- Generic left-to-right non-overlapping `re.sub(..., repl, s)` scan for
a pattern with a deterministic head matcher returning the matched length
(all matchers used consume at least one character). -/
def subReplaceAux (matchAt : List Char → Option Nat) (repl : List Char) :
    Nat → List Char → List Char
  | 0, l => l
  | _ + 1, [] => []
  | fuel + 1, c :: t =>
    match matchAt (c :: t) with
    | some k => repl ++ subReplaceAux matchAt repl fuel ((c :: t).drop k)
    | none => c :: subReplaceAux matchAt repl fuel t

/-- `re.sub(pattern, '', s)` for a head matcher. -/
def subRemove (matchAt : List Char → Option Nat) (s : String) : String :=
  ⟨subReplaceAux matchAt [] s.toList.length s.toList⟩

/-- `re.sub(pattern, repl, s)` for a head matcher. -/
def subReplace (matchAt : List Char → Option Nat) (repl : String)
    (s : String) : String :=
  ⟨subReplaceAux matchAt repl.toList s.toList.length s.toList⟩

/-- Python `\w` (ASCII fragment): letters, digits, underscore. -/
def isWordChar (c : Char) : Bool :=
  c.isAlphanum || c = '_'

/-- Head matcher for `@\w+`. -/
def atWordAt (l : List Char) : Option Nat :=
  match l with
  | '@' :: t =>
    let w := (t.takeWhile isWordChar).length
    if 1 ≤ w then some (1 + w) else none
  | _ => none

/-- Head matcher for a literal followed by `\s*`. -/
def litWsAt (lit : List Char) (l : List Char) : Option Nat :=
  if lit.isPrefixOf l then
    some (lit.length + ((l.drop lit.length).takeWhile isPySpace).length)
  else none

/-- Head matcher for `\(\s*\)`. -/
def parensEmptyAt (l : List Char) : Option Nat :=
  match l with
  | '(' :: t =>
    let w := (t.takeWhile isPySpace).length
    if (t.drop w).head? = some ')' then some (1 + w + 1) else none
  | _ => none

/-- Head matcher for `\(\s*[0-9]+\s*\)`. -/
def parensNumAt (l : List Char) : Option Nat :=
  match l with
  | '(' :: t =>
    let w1 := (t.takeWhile isPySpace).length
    let r1 := t.drop w1
    let k := (r1.takeWhile Char.isDigit).length
    if 1 ≤ k then
      let r2 := r1.drop k
      let w2 := (r2.takeWhile isPySpace).length
      if (r2.drop w2).head? = some ')' then some (1 + w1 + k + w2 + 1)
      else none
    else none
  | _ => none

/-- Head matcher for `\(\s*\d{1,2}[-]?[A-Za-z]{3}[-]?\d*\s*\)`.  The
greedy counters cannot usefully backtrack (each boundary character class
is disjoint from its neighbour), so maximal runs with the digit run
restricted to length one or two are exact. -/
def parenDateAt (l : List Char) : Option Nat :=
  match l with
  | '(' :: t =>
    let w1 := (t.takeWhile isPySpace).length
    let r1 := t.drop w1
    let k := (r1.takeWhile Char.isDigit).length
    if k = 1 ∨ k = 2 then
      let r2 := r1.drop k
      let dash1 := if r2.head? = some '-' then 1 else 0
      let r3 := r2.drop dash1
      if (r3.take 3).length = 3 ∧ (r3.take 3).all Char.isAlpha then
        let r4 := r3.drop 3
        let dash2 := if r4.head? = some '-' then 1 else 0
        let r5 := r4.drop dash2
        let dlen := (r5.takeWhile Char.isDigit).length
        let r6 := r5.drop dlen
        let w2 := (r6.takeWhile isPySpace).length
        if (r6.drop w2).head? = some ')' then
          some (1 + w1 + k + dash1 + 3 + dash2 + dlen + w2 + 1)
        else none
      else none
    else none
  | _ => none

/-- Head matcher for the lazy `\[.*?\]`: bracket, minimal run of
non-`]` non-newline characters, closing bracket. -/
def bracketAt (l : List Char) : Option Nat :=
  match l with
  | '[' :: t =>
    let inner := (t.takeWhile (fun c => c ≠ ']' && c ≠ '\n')).length
    if (t.drop inner).head? = some ']' then some (1 + inner + 1) else none
  | _ => none

/-- Head matcher for `\*.*$` (a star whose suffix `.*$` can cover,
i.e. newline-free except an optional single trailing newline). -/
def starEolAt (l : List Char) : Bool :=
  match l with
  | '*' :: t => dotStarDollarOk t
  | _ => false

/-- `re.sub(r'\*.*$', '', s)`: at most one replacement, keeping a
trailing newline the dollar anchor stopped before. -/
def subStarEol (s : String) : String :=
  match leftmostIdx starEolAt s.toList 0 with
  | none => s
  | some p =>
    ⟨s.toList.take p ++
      (if s.toList.getLast? = some '\n' then ['\n'] else [])⟩

/-- Head matcher (Boolean) for `\s*\/+\s*$` covering the whole suffix up
to the dollar anchor. -/
def trailSlashAt (l : List Char) : Bool :=
  let core := toDollar l
  let a := (core.takeWhile isPySpace).length
  let r := core.drop a
  let b := (r.takeWhile (fun c => c = '/')).length
  1 ≤ b && (r.drop b).all isPySpace

/-- `re.sub(r'\s*\/+\s*$', '', s)`: at most one replacement. -/
def subTrailSlash (s : String) : String :=
  match leftmostIdx trailSlashAt s.toList 0 with
  | none => s
  | some p =>
    ⟨s.toList.take p ++
      (if s.toList.getLast? = some '\n' then ['\n'] else [])⟩

/-- Head matcher for `SDN\s*BH` (replaced by `"SDN BH"`). -/
def sdnWsBhAt (l : List Char) : Option Nat :=
  if "SDN".toList.isPrefixOf l then
    let rest := l.drop 3
    let w := (rest.takeWhile isPySpace).length
    if "BH".toList.isPrefixOf (rest.drop w) then some (3 + w + 2) else none
  else none

/-- Source: `src/nlp_parser/MY_mbb_txn_parser_nlp.py`, lines 93-127,
`basic_clean_customer_name`: the ordered `re.sub` rewrite chain. -/
def basic_clean_customer_name (text : String) : String :=
  if text = "" then text
  else
    let c := text
    let c :=
      (let l := c.toList
       let d := (l.takeWhile Char.isDigit).length
       if d = 0 then c else (⟨(l.drop d).dropWhile isPySpace⟩ : String))
    let c := subStarEol c
    let c := subRemove atWordAt c
    let c := pyReplace c "-" ""
    let c := subRemove (litWsAt "IBG PAYMENT INTO A/C".toList) c
    let c := subRemove (litWsAt "MBB CT".toList) c
    let c := subRemove parensEmptyAt c
    let c := subRemove parensNumAt c
    let c := subRemove parenDateAt c
    let c := subRemove bracketAt c
    let c := subTrailSlash c
    let c := pyReplace c "SDN." "SDN"
    let c := pyReplace c "BHD." "BHD"
    let c := pyReplace c "BH." "BH"
    let c := subReplace sdnWsBhAt "SDN BH" c
    let c := pyReplace c "SDNBH" "SDN BH"
    let c := pyReplace c "SDNBHD" "SDN BHD"
    pyStrip c

/-- Source: `src/nlp_parser/MY_mbb_txn_parser_nlp.py`, lines 130-145,
`format_customer_name`: fix the mis-decoded accented character (the
two-character mojibake sequence U+00C3 U+2030), unescape `&amp;`, and
uppercase. -/
def format_customer_name (name : String) : String :=
  if name = "" then name
  else
    let n := pyReplace name "Ã‰" "E"
    let n := pyReplace n "&amp;" "&"
    pyUpper n

/-- The trained model artifact (`model_data`), as produced by
`src/train/train_customer_model.py`: the exact-match dictionary (a Python
dict, so keys are unique; modelled as an association list), the
fuzzy-candidate key list (`list(reference_dict.keys())`), and the
external sklearn vectorizer+classifier abstracted as the predicted class
and the maximum predicted probability. -/
structure TrainedNameModel where
  reference_dict : List (String × String)
  training_examples : List String
  classifierPredict : String → String
  classifierMaxProba : String → ℚ

/-- Python dict lookup on the association list. -/
def lookupRef (d : List (String × String)) (k : String) : Option String :=
  (d.find? (fun p => p.1 = k)).map (fun p => p.2)

/-- fuzzywuzzy `process.extractOne(query, choices)`: the best-scoring
choice (first wins on ties, as Python `max` keeps the first maximum);
`none` on an empty choice list.  The pairwise scorer is external library
code, abstracted as a parameter. -/
def extractOne (scorer : String → String → ℚ) (query : String)
    (choices : List String) : Option (String × ℚ) :=
  choices.foldl
    (fun acc c =>
      let sc := scorer query c
      match acc with
      | none => some (c, sc)
      | some (_, bs) => if sc > bs then some (c, sc) else acc)
    none

/-- The default `min_confidence` of `predict_clean_name`. -/
def defaultMinConfidence : ℚ := mkRat 1 2

/-- The default `fuzzy_threshold` of `predict_clean_name` (fuzzywuzzy
scores are on the 0-100 scale; 85 is the normalized ratio 0.85). -/
def defaultFuzzyThreshold : ℚ := 85

/-- Source: `src/nlp_parser/MY_mbb_txn_parser_nlp.py`, lines 13-52,
`predict_clean_name`.  The `.error` cases model the `TypeError` raised by
unpacking `process.extractOne(...) = None` (empty candidate list) and the
`KeyError` on `reference_dict[best_match]` (impossible for models built
by the training scripts, where `training_examples` is exactly the key
list). -/
def predict_clean_name (scorer : String → String → ℚ)
    (model_data : TrainedNameModel) (raw_name : String)
    (min_confidence fuzzy_threshold : ℚ) : Except String String :=
  if raw_name = "" then .ok raw_name
  else
    match lookupRef model_data.reference_dict (pyLower raw_name) with
    | some result => .ok (format_customer_name result)
    | none =>
      match extractOne scorer (pyLower raw_name)
          model_data.training_examples with
      | none => .error "TypeError: cannot unpack None"
      | some (best_match, score) =>
        if fuzzy_threshold ≤ score then
          match lookupRef model_data.reference_dict best_match with
          | some result => .ok (format_customer_name result)
          | none => .error "KeyError: fuzzy match not in reference dict"
        else
          if min_confidence ≤ model_data.classifierMaxProba raw_name then
            .ok (format_customer_name (model_data.classifierPredict raw_name))
          else .ok (format_customer_name (basic_clean_customer_name raw_name))

/-- A raw Business Central customer record from the API response
(`blocked` is the raw string field; `"All"` marks a blocked customer). -/
structure BCCustomer where
  id : String
  number : String
  displayName : String
  blocked : String
deriving DecidableEq, Repr

/-- The name preprocessing `get_customer_info` applies before building
the OData filter (source lines 28-32). -/
def encodeNameForBC (customer_name : String) : String :=
  let n := pyStrip customer_name
  let n := pyReplace n "%26amp;" "&"
  let n := pyReplace n "%26" "&"
  pyReplace n "&" "%26"

/-- Source: `src/modules/business_central.py`, lines 24-79,
`get_customer_info`.  The HTTP round trip is the `call` oracle (`.error`
models any exception, turned into `None` by the handler).  Only the FIRST
entry's blocked flag is consulted: if it is blocked and a second entry
exists, the second is taken, whatever its own flag says.  `pickCustomer` is the
`customer` selection of lines 58-64. -/
def pickCustomer (c1 : BCCustomer) (rest : List BCCustomer) : BCCustomer :=
  match rest with
  | [] => c1
  | c2 :: _ => if c1.blocked = "All" then c2 else c1

/-- Source continued: the record assembly of `get_customer_info`. -/
def get_customer_info (call : String → Except String (List BCCustomer))
    (customer_name : String) : Option CustomerInfo :=
  if customer_name = "" then none
  else
    match call (encodeNameForBC customer_name) with
    | .error _ => none
    | .ok [] => none
    | .ok (c1 :: rest) =>
      let customer := pickCustomer c1 rest
      some ⟨customer.id, customer.number, customer.displayName,
        customer.blocked = "All"⟩

/-- Claim C9 as stated: blocked entries are only deprioritized, so
whenever the matching candidate list contains any unblocked entry (all
entries returned by the contains-filter rank equally), the customer
returned is unblocked. -/
def C9_claim_prop : Prop :=
  ∀ (call : String → Except String (List BCCustomer))
    (customer_name : String) (cs : List BCCustomer),
    customer_name ≠ "" →
    call (encodeNameForBC customer_name) = .ok cs →
    (∃ c ∈ cs, c.blocked ≠ "All") →
    ∃ ci, get_customer_info call customer_name = some ci ∧
      ci.blocked = false


/-- Concrete two-entry trained model for witnesses. -/
def mdDemo : TrainedNameModel :=
  { reference_dict := [("acme corp", "Acme Corporation"), ("beta", "Beta LLC")],
    training_examples := ["acme corp", "beta"],
    classifierPredict := fun _ => "Gamma Inc",
    classifierMaxProba := fun _ => mkRat 3 4 }

/-- Fuzzy scorer giving "acme corp" a high score. -/
def fuzzyHi : String → String → ℚ :=
  fun _ c => if c = "acme corp" then 90 else 10

/-- Fuzzy scorer giving every choice a low score. -/
def fuzzyLo : String → String → ℚ :=
  fun _ _ => 10

/-- Concrete blocked BC customer records and an unblocked one. -/
def bcBlockedA : BCCustomer :=
  ⟨"id-a", "C001", "BLOCKED ONE", "All"⟩

/-- Second blocked BC customer. -/
def bcBlockedB : BCCustomer :=
  ⟨"id-b", "C002", "BLOCKED TWO", "All"⟩

/-- Unblocked BC customer. -/
def bcUnblockedC : BCCustomer :=
  ⟨"id-c", "C003", "FREE THREE", ""⟩

/-- Oracle returning two blocked entries before an unblocked one. -/
def bcCallThree : String → Except String (List BCCustomer) :=
  fun _ => .ok [bcBlockedA, bcBlockedB, bcUnblockedC]

/-- Oracle returning a blocked entry before an unblocked one. -/
def bcCallTwo : String → Except String (List BCCustomer) :=
  fun _ => .ok [bcBlockedA, bcUnblockedC]

-- ===== THEOREMS =====

theorem processRowDual_localMatch (scorer : String → String → ℚ)
    (customer_df : DFrame) (bc_df : Option DFrame) (aiEnabled : Bool)
    (stage1Call : Except String Stage1Resp)
    (stage2Call : Except String Stage2Resp) (df_columns : List String)
    (local_threshold bc_threshold : ℚ) (row : RowMap) (m : RowMap)
    (hname : normalize_customer_name (row "CUSTOMER_NAME") ≠ "")
    (hfind : (find_best_match_in_dataframe scorer
        (normalize_customer_name (row "CUSTOMER_NAME")) customer_df
        local_db_columns local_threshold).1 = some m) :
    processRowDual scorer customer_df bc_df aiEnabled stage1Call stage2Call
        df_columns local_threshold bc_threshold row =
      .ok (rowSet row "CUSTOMER_NAME"
          (.strV (normalize_customer_name (m "CUSTOMER NAME"))),
        .localMatch) := by
  unfold processRowDual
  simp only [hfind, if_neg hname]

/-- Claim C3: whenever the candidate name scores at or above the alias
table's threshold there (so `find_best_match_in_dataframe` on the alias
table returns a match), the row is resolved to that alias-table match,
whatever the BC cache and AI oracles contain: the lower-precedence
registry is never consulted for that row.  In particular a candidate
above threshold in both registries resolves to the alias-table match. -/
theorem claim_C3_alias_table_precedence (scorer : String → String → ℚ)
    (customer_df : DFrame) (bc_df : Option DFrame) (aiEnabled : Bool)
    (stage1Call : Except String Stage1Resp)
    (stage2Call : Except String Stage2Resp) (df_columns : List String)
    (local_threshold bc_threshold : ℚ) (row : RowMap) (m : RowMap)
    (hname : normalize_customer_name (row "CUSTOMER_NAME") ≠ "")
    (hfind : (find_best_match_in_dataframe scorer
        (normalize_customer_name (row "CUSTOMER_NAME")) customer_df
        local_db_columns local_threshold).1 = some m) :
    processRowDual scorer customer_df bc_df aiEnabled stage1Call stage2Call
        df_columns local_threshold bc_threshold row =
      .ok (rowSet row "CUSTOMER_NAME"
          (.strV (normalize_customer_name (m "CUSTOMER NAME"))),
        .localMatch) :=
  processRowDual_localMatch scorer customer_df bc_df aiEnabled stage1Call
    stage2Call df_columns local_threshold bc_threshold row m hname hfind

/-- Witness for claim C3: the name "FOO" matches the alias row exactly
(similarity 1 ≥ 0.95) and also matches the BC cache row exactly, yet the
row resolves to the alias table's canonical name "BAR". -/
theorem claim_C3_alias_table_precedence_witness :
    processRowDual indScorer aliasDF
        (some ⟨bc_cache_columns, [fun c =>
          if c = "CUSTOMER_NAME" then Cell.strV "FOO" else Cell.nanV]⟩)
        false (.error "offline") (.error "offline") []
        (mkRat 95 100) (mkRat 75 100)
        (fun c => if c = "CUSTOMER_NAME" then Cell.strV "FOO" else Cell.nanV) =
      .ok (rowSet
          (fun c => if c = "CUSTOMER_NAME" then Cell.strV "FOO" else Cell.nanV)
          "CUSTOMER_NAME" (.strV (normalize_customer_name (aliasRow "CUSTOMER NAME"))),
        .localMatch) :=
  claim_C3_alias_table_precedence indScorer aliasDF
    (some ⟨bc_cache_columns, [fun c =>
      if c = "CUSTOMER_NAME" then Cell.strV "FOO" else Cell.nanV]⟩)
    false (.error "offline") (.error "offline") []
    (mkRat 95 100) (mkRat 75 100)
    (fun c => if c = "CUSTOMER_NAME" then Cell.strV "FOO" else Cell.nanV)
    aliasRow (by decide) rfl

/-- Claim C10: a row whose `CUSTOMER_NAME` is missing, NaN or normalizes
to the empty string is left entirely unchanged by the reconciliation
pass: no registry matching happens and the AI fallback is never invoked
(the result is the unchanged row for every registry content and every AI
oracle, including erroring ones). -/
theorem claim_C10_empty_name_skipped (scorer : String → String → ℚ)
    (customer_df : DFrame) (bc_df : Option DFrame) (aiEnabled : Bool)
    (stage1Call : Except String Stage1Resp)
    (stage2Call : Except String Stage2Resp) (df_columns : List String)
    (local_threshold bc_threshold : ℚ) (row : RowMap)
    (hname : normalize_customer_name (row "CUSTOMER_NAME") = "") :
    processRowDual scorer customer_df bc_df aiEnabled stage1Call stage2Call
        df_columns local_threshold bc_threshold row =
      .ok (row, .skippedEmpty) := by
  unfold processRowDual
  simp [hname]

/-- Witness for claim C10: a whitespace-only customer name (which
normalizes to the empty string) on a row with a rich description is
skipped unchanged, with erroring AI oracles and a populated alias
table. -/
theorem claim_C10_empty_name_skipped_witness :
    processRowDual indScorer aliasDF (some bcDFJohn) true
        (.error "network down") (.error "network down")
        ["CUSTOMER_NAME", "DESCRIPTION"] (mkRat 95 100) (mkRat 75 100)
        rowBlankName =
      .ok (rowBlankName, .skippedEmpty) :=
  claim_C10_empty_name_skipped indScorer aliasDF (some bcDFJohn) true
    (.error "network down") (.error "network down")
    ["CUSTOMER_NAME", "DESCRIPTION"] (mkRat 95 100) (mkRat 75 100)
    rowBlankName (by decide)

theorem fbm_flatten (scorer : String → String → ℚ) (input_name : String)
    (df : DFrame) (name_columns : List String) (t : ℚ) :
    find_best_match_in_dataframe scorer input_name df name_columns t =
      (df.rows.flatMap fun r => name_columns.map (fun c => (r, c))).foldl
        (fun acc p => fbmUpdate scorer input_name df.columns t acc p.1 p.2)
        (none, 0, none) := by
  unfold find_best_match_in_dataframe
  generalize ((none, 0, none) : Option RowMap × ℚ × Option String) = init
  induction df.rows generalizing init with
  | nil => rfl
  | cons r rs ih =>
    simp [List.flatMap_cons, List.foldl_append, List.foldl_map, ih]

theorem fbm_some_preserved (scorer : String → String → ℚ) (input_name : String)
    (dfColumns : List String) (t : ℚ) (l : List (RowMap × String))
    (acc : Option RowMap × ℚ × Option String) (h : acc.1.isSome) :
    (l.foldl (fun acc p => fbmUpdate scorer input_name dfColumns t acc p.1 p.2)
      acc).1.isSome := by
  induction l generalizing acc with
  | nil => exact h
  | cons p l ih =>
    apply ih
    unfold fbmUpdate
    dsimp only
    split
    · split
      · exact h
      · split
        · rfl
        · exact h
    · exact h

theorem fbm_matched_iff_hit (scorer : String → String → ℚ) (input_name : String)
    (dfColumns : List String) (t : ℚ) (l : List (RowMap × String)) :
    (l.foldl (fun acc p => fbmUpdate scorer input_name dfColumns t acc p.1 p.2)
        ((none, 0, none) : Option RowMap × ℚ × Option String)).1.isSome ↔
      ∃ p ∈ l, fbmHit scorer input_name dfColumns t p := by
  induction l with
  | nil => simp [find_best_match_in_dataframe]
  | cons p l ih =>
    by_cases hp : fbmHit scorer input_name dfColumns t p
    · constructor
      · intro _
        exact ⟨p, List.mem_cons_self p l, hp⟩
      · intro _
        obtain ⟨h1, h2, h3, h4⟩ := hp
        simp only [List.foldl_cons]
        apply fbm_some_preserved
        unfold fbmUpdate
        dsimp only
        rw [if_pos h1, if_neg h2, if_pos ⟨h3, h4⟩]
        rfl
    · have hstep : fbmUpdate scorer input_name dfColumns t (none, 0, none) p.1 p.2 =
          ((none, 0, none) : Option RowMap × ℚ × Option String) := by
        unfold fbmUpdate
        dsimp only
        unfold fbmHit at hp
        split
        · split
          · rfl
          · split
            · rename_i hcol hne hsim
              exact absurd ⟨hcol, hne, hsim.1, hsim.2⟩ hp
            · rfl
        · rfl
      simp only [List.foldl_cons, hstep, ih]
      constructor
      · intro ⟨q, hq, hhit⟩
        exact ⟨q, List.mem_cons_of_mem p hq, hhit⟩
      · intro ⟨q, hq, hhit⟩
        rcases List.mem_cons.mp hq with h | h
        · exact absurd (h ▸ hhit) hp
        · exact ⟨q, h, hhit⟩

/-- Claim C4: for a fixed candidate name, registry table and match
columns, and thresholds `t1 ≤ t2`, if `find_best_match_in_dataframe`
succeeds (`matched = true`, i.e. returns a best match) at threshold `t2`
then it also succeeds at threshold `t1`: raising the threshold can only
turn `matched=true` into `matched=false`, never the reverse. -/
theorem claim_C4_threshold_monotonicity (scorer : String → String → ℚ)
    (input_name : String) (df : DFrame) (name_columns : List String)
    (t1 t2 : ℚ) (hle : t1 ≤ t2)
    (h2 : (find_best_match_in_dataframe scorer input_name df name_columns t2).1.isSome) :
    (find_best_match_in_dataframe scorer input_name df name_columns t1).1.isSome := by
  rw [fbm_flatten] at h2 ⊢
  rw [fbm_matched_iff_hit] at h2 ⊢
  obtain ⟨p, hmem, hcol, hne, hpos, hge⟩ := h2
  exact ⟨p, hmem, hcol, hne, hpos, le_trans hle hge⟩

/-- Witness for claim C4: a concrete one-row registry in which the name
"ACME" matches at threshold 19/20 and hence also at threshold 1/2. -/
theorem claim_C4_threshold_monotonicity_witness :
    (mkRat 1 2 ≤ mkRat 19 20) ∧
      (find_best_match_in_dataframe (fun a b => if a = b then 1 else 0) "ACME"
        ⟨["SPECIAL NAME BANK IN"],
          [fun c => if c = "SPECIAL NAME BANK IN" then Cell.strV "ACME" else Cell.nanV]⟩
        ["SPECIAL NAME BANK IN"] (mkRat 1 2)).1.isSome :=
  ⟨by norm_num,
    claim_C4_threshold_monotonicity (fun a b => if a = b then 1 else 0) "ACME"
      ⟨["SPECIAL NAME BANK IN"],
        [fun c => if c = "SPECIAL NAME BANK IN" then Cell.strV "ACME" else Cell.nanV]⟩
      ["SPECIAL NAME BANK IN"] (mkRat 1 2) (mkRat 19 20) (by norm_num) (by decide)⟩

/-- Counterexample for claim C1: with a stage-2 response recommending
`update_customer` at confidence 95 whose `selected_match` is JSON `null`,
the code leaves the row unchanged (the acceptance test at lines 851-854
additionally requires a truthy selected match), so "overwrites if and
only if recommendation is update_customer and confidence ≥ 90" fails in
the "if" direction. -/
theorem claim_C1_counterexample : ¬C1_claim_prop := by
  intro h
  have hmain := h halfScorer emptyAliasDF bcDFJohn (.ok s1Alt) r2Null
    ["CUSTOMER_NAME", "DESCRIPTION"] (mkRat 95 100) (mkRat 3 4)
    rowJohn rowJohn RowOutcome.noMatch (by unfold reachesStage2; decide)
    (by decide) (by decide) rfl
  exact absurd (hmain.1.mpr ⟨by decide, by decide⟩) (by decide)

/-- Claim C1 as amended: on an AI-stage run that consults stage 2 with a
structured response `r` (confidence, recommendation and selected-match
keys present), the row's `CUSTOMER_NAME` is overwritten if and only if
the recommendation is `update_customer`, the confidence is ≥ 90, and the
selected match carries a non-null, non-empty customer name that differs
from the normalized input name; in every other case (in particular for
confidence in [0,90)) the row is left entirely unchanged, so the
`CUSTOMER_NAME` left in the row is byte-identical to its pre-stage value
(whose normalization is the name the AI stage received). -/
theorem claim_C1_corrected (scorer : String → String → ℚ)
    (customer_df bcdf : DFrame) (stage1Call : Except String Stage1Resp)
    (r : Stage2Resp) (df_columns : List String)
    (local_threshold bc_threshold : ℚ) (row : RowMap)
    (hreach : reachesStage2 scorer customer_df bcdf stage1Call df_columns
      local_threshold bc_threshold row)
    (hconf : r.confidence_score.isSome) (hrec : r.recommendation.isSome)
    (hsel : r.selected_match.isSome)
    (hwf : ∀ m, r.selected_match = some (some m) → m.customer_name.isSome) :
    ∃ row' oc,
      processRowDual scorer customer_df (some bcdf) true stage1Call (.ok r)
          df_columns local_threshold bc_threshold row = .ok (row', oc) ∧
      (oc = RowOutcome.aiMatch ↔
        (r.recommendation = some "update_customer" ∧
          90 ≤ r.confidence_score.getD 0 ∧
          ∃ s, smName r.selected_match = some s ∧
            s ≠ normalize_customer_name (row "CUSTOMER_NAME"))) ∧
      (oc = RowOutcome.aiMatch →
        ∀ s, smName r.selected_match = some s →
          row' = rowSet row "CUSTOMER_NAME" (.strV s)) ∧
      (oc ≠ RowOutcome.aiMatch → row' = row) := by
  obtain ⟨h1, h2, h3, h4, h5, h6, h7, h8, h9, h10, h11⟩ := hreach
  rw [Option.isNone_iff_eq_none] at h2 h3
  obtain ⟨alts, halts⟩ := Option.isSome_iff_exists.mp h7
  obtain ⟨ica, hica⟩ := Option.isSome_iff_exists.mp h8
  obtain ⟨cic, hcic⟩ := Option.isSome_iff_exists.mp h9
  obtain ⟨rsn, hrsn⟩ := Option.isSome_iff_exists.mp h10
  obtain ⟨conf, hconf'⟩ := Option.isSome_iff_exists.mp hconf
  obtain ⟨rc, hrec'⟩ := Option.isSome_iff_exists.mp hrec
  obtain ⟨sm, hsel'⟩ := Option.isSome_iff_exists.mp hsel
  rw [halts] at h11
  simp only [Option.getD_some] at h11
  have h11' : (get_top_matches_all scorer
      (dedupKeepOrder (normalize_customer_name (row "CUSTOMER_NAME") :: alts))
      bcdf bc_cache_columns).isEmpty = false := by
    cases hh : (get_top_matches_all scorer
        (dedupKeepOrder (normalize_customer_name (row "CUSTOMER_NAME") :: alts))
        bcdf bc_cache_columns).isEmpty
    · rfl
    · exact absurd hh h11
  unfold processRowDual processRowAIStage ai_two_stage_matching
    stage2_score_matches
  simp only [if_neg h1, h2, h3, if_pos (And.intro h4 h5), if_neg h6, halts,
    hica, hcic, hrsn, hconf', hrec', hsel', h11', Option.isNone_some,
    Bool.false_or, Bool.or_false, Bool.or_self, if_true, if_false,
    Bool.false_eq_true, ite_true, ite_false, Option.getD_some]
  by_cases hcond : rc = "update_customer" ∧ 90 ≤ conf
  · rw [if_pos ⟨congrArg some hcond.1, hcond.2⟩]
    match sm, hsel' with
    | none, hsel' =>
      refine ⟨row, RowOutcome.noMatch, by simp, ?_, by simp, fun _ => rfl⟩
      constructor
      · intro hh
        exact absurd hh (by simp)
      · rintro ⟨-, -, s, hs, -⟩
        simp [smName] at hs
    | some m, hsel' =>
      dsimp only
      obtain ⟨cn, hcn⟩ := Option.isSome_iff_exists.mp (hwf m hsel')
      rw [hcn]
      simp only [Option.isSome_some, Bool.true_or]
      rw [if_pos trivial]
      match cn, hcn with
      | none, hcn =>
        dsimp only
        refine ⟨row, RowOutcome.noMatch, by simp, ?_, by simp, fun _ => rfl⟩
        constructor
        · intro hh
          exact absurd hh (by simp)
        · rintro ⟨-, -, s, hs, -⟩
          simp [smName, hcn] at hs
      | some s, hcn =>
        dsimp only
        by_cases hempty : s = ""
        · rw [if_pos hempty]
          refine ⟨row, RowOutcome.noMatch, by simp, ?_, by simp, fun _ => rfl⟩
          constructor
          · intro hh
            exact absurd hh (by simp)
          · rintro ⟨-, -, s', hs, -⟩
            simp [smName, hcn, hempty] at hs
        · rw [if_neg hempty]
          dsimp only
          by_cases hsame : s = normalize_customer_name (row "CUSTOMER_NAME")
          · rw [if_neg (by simp [hsame])]
            refine ⟨row, RowOutcome.noMatch, by simp, ?_, by simp, fun _ => rfl⟩
            constructor
            · intro hh
              exact absurd hh (by simp)
            · rintro ⟨-, -, s', hs, hne⟩
              simp only [smName, hcn, if_neg hempty, Option.some_inj] at hs
              exact absurd (hs ▸ hsame) hne
          · rw [if_pos ⟨rfl, hsame⟩]
            refine ⟨rowSet row "CUSTOMER_NAME" (.strV s), RowOutcome.aiMatch,
              by simp, ?_, ?_, by simp⟩
            · constructor
              · intro _
                exact ⟨congrArg some hcond.1, hcond.2, s,
                  by simp [smName, hcn, hempty], hsame⟩
              · intro _
                rfl
            · intro _ s' hs'
              simp only [smName, hcn, if_neg hempty, Option.some_inj] at hs'
              rw [hs']
  · rw [if_neg (fun hx => hcond ⟨Option.some_inj.mp hx.1, hx.2⟩)]
    refine ⟨row, RowOutcome.noMatch, by simp, ?_, by simp, fun _ => rfl⟩
    constructor
    · intro hh
      exact absurd hh (by simp)
    · rintro ⟨ha, hb, -⟩
      exact absurd ⟨Option.some_inj.mp ha, hb⟩ hcond

/-- Witness for the amended claim C1: a concrete run reaching stage 2
with a stage-2 response selecting "JOHNNY SMITH" at confidence 95
satisfies all hypotheses of the amended theorem. -/
theorem claim_C1_corrected_witness :
    ∃ row' oc,
      processRowDual halfScorer emptyAliasDF (some bcDFJohn) true (.ok s1Alt)
          (.ok r2Update) ["CUSTOMER_NAME", "DESCRIPTION"] (mkRat 95 100)
          (mkRat 3 4) rowJohn = .ok (row', oc) ∧
      (oc = RowOutcome.aiMatch ↔
        (r2Update.recommendation = some "update_customer" ∧
          90 ≤ r2Update.confidence_score.getD 0 ∧
          ∃ s, smName r2Update.selected_match = some s ∧
            s ≠ normalize_customer_name (rowJohn "CUSTOMER_NAME"))) ∧
      (oc = RowOutcome.aiMatch →
        ∀ s, smName r2Update.selected_match = some s →
          row' = rowSet rowJohn "CUSTOMER_NAME" (.strV s)) ∧
      (oc ≠ RowOutcome.aiMatch → row' = rowJohn) :=
  claim_C1_corrected halfScorer emptyAliasDF bcDFJohn (.ok s1Alt) r2Update
    ["CUSTOMER_NAME", "DESCRIPTION"] (mkRat 95 100) (mkRat 3 4) rowJohn
    (by unfold reachesStage2; decide) (by decide) (by decide) (by decide)
    (by
      intro m h
      simp only [r2Update] at h
      injection h with h1
      injection h1 with h2
      rw [← h2]
      decide)

/-- Claim C2 evaluated at the failing input: a stage-1 response that is
valid JSON but lacks the `possible_alternatives` key makes the row step
raise an uncaught `KeyError` (line 825 of
`src/utils/update_customer_name.py` accesses the key outside any `try`),
aborting the batch instead of degrading to "no match, keep original". -/
theorem claim_C2_bug_evaluation :
    processRowDual halfScorer emptyAliasDF (some bcDFJohn) true
        (.ok s1MissingAlts) (.ok r2Update) ["CUSTOMER_NAME", "DESCRIPTION"]
        (mkRat 95 100) (mkRat 3 4) rowJohn =
      .error "KeyError: possible_alternatives" := rfl

/-- Counterexample for claim C6: the reconciliation pass does not inspect
`STATUS`; a row already marked `Transferred` whose name matches the alias
table gets its `CUSTOMER_NAME` rewritten, so "every field of a
Transferred row is left unchanged" fails. -/
theorem claim_C6_counterexample : ¬C6_claim_prop := by
  intro h
  have hrow := h.2 indScorer aliasDF none false (.error "offline")
    (.error "offline") [] (mkRat 95 100) (mkRat 75 100) rowFooTransferred
    (rowSet rowFooTransferred "CUSTOMER_NAME" (Cell.strV "BAR"))
    RowOutcome.localMatch (by decide) rfl
  have hb := congrFun hrow "CUSTOMER_NAME"
  simp [rowSet, rowFooTransferred] at hb

/-- Claim C6 as amended: the payment-creation step
(`src/core/MY_mbb_create_pymt.py`) skips a `STATUS = "Transferred"` row
and leaves every field unchanged; the reconciliation pass
(`update_customer_name_for_file_dual`), however, never consults `STATUS`
— its only skip is an empty customer name — and rewrites the
`CUSTOMER_NAME` of any row (including a Transferred one) whose name
matches the alias table. -/
theorem claim_C6_corrected :
    (∀ (lookup : Cell → Option CustomerInfo) (creditParse : Cell → Option ℚ)
        (createPayment : Option String) (row : RowMap),
      row "STATUS" = Cell.strV "Transferred" →
      mbbPaymentProcessRow lookup creditParse createPayment row = row) ∧
    (∀ (scorer : String → String → ℚ) (customer_df : DFrame)
        (bc_df : Option DFrame) (aiEnabled : Bool)
        (stage1Call : Except String Stage1Resp)
        (stage2Call : Except String Stage2Resp) (df_columns : List String)
        (local_threshold bc_threshold : ℚ) (row m : RowMap),
      normalize_customer_name (row "CUSTOMER_NAME") ≠ "" →
      (find_best_match_in_dataframe scorer
          (normalize_customer_name (row "CUSTOMER_NAME")) customer_df
          local_db_columns local_threshold).1 = some m →
      processRowDual scorer customer_df bc_df aiEnabled stage1Call stage2Call
          df_columns local_threshold bc_threshold row =
        .ok (rowSet row "CUSTOMER_NAME"
            (.strV (normalize_customer_name (m "CUSTOMER NAME"))),
          .localMatch)) := by
  constructor
  · intro lookup creditParse createPayment row h
    unfold mbbPaymentProcessRow
    rw [if_pos h]
  · intro scorer customer_df bc_df aiEnabled stage1Call stage2Call df_columns
      local_threshold bc_threshold row m hname hfind
    exact processRowDual_localMatch scorer customer_df bc_df aiEnabled
      stage1Call stage2Call df_columns local_threshold bc_threshold row m
      hname hfind

/-- Witness for the amended claim C6: a Transferred row passes unchanged
through the payment step, while the reconciliation pass rewrites the same
Transferred row's name to the alias table's canonical name. -/
theorem claim_C6_corrected_witness :
    mbbPaymentProcessRow (fun _ => none) (fun _ => none) none
        rowFooTransferred = rowFooTransferred ∧
      processRowDual indScorer aliasDF none false (.error "offline")
          (.error "offline") [] (mkRat 95 100) (mkRat 75 100)
          rowFooTransferred =
        .ok (rowSet rowFooTransferred "CUSTOMER_NAME"
            (.strV (normalize_customer_name (aliasRow "CUSTOMER NAME"))),
          .localMatch) :=
  ⟨claim_C6_corrected.1 (fun _ => none) (fun _ => none) none rowFooTransferred
      (by decide),
    claim_C6_corrected.2 indScorer aliasDF none false (.error "offline")
      (.error "offline") [] (mkRat 95 100) (mkRat 75 100) rowFooTransferred
      aliasRow (by decide) rfl⟩

theorem duitnowScanAux_le (s : String) (ms : List String) (init : Nat) :
    ms.foldl
      (fun acc marker =>
        match pyFind marker s with
        | some idx => if 0 < idx ∧ idx < acc then idx else acc
        | none => acc) init ≤ init := by
  induction ms generalizing init with
  | nil => simp
  | cons m0 ms ih =>
    simp only [List.foldl_cons]
    cases hf : pyFind m0 s with
    | none =>
      simp only [hf]
      exact ih init
    | some idx =>
      simp only [hf]
      by_cases hc : 0 < idx ∧ idx < init
      · rw [if_pos hc]
        exact le_trans (ih idx) (le_of_lt hc.2)
      · rw [if_neg hc]
        exact ih init

theorem duitnowScanAux_min (s m : String) (i : Nat)
    (hf : pyFind m s = some i) (hpos : 0 < i) :
    ∀ (ms : List String) (init : Nat), m ∈ ms →
      ms.foldl
        (fun acc marker =>
          match pyFind marker s with
          | some idx => if 0 < idx ∧ idx < acc then idx else acc
          | none => acc) init ≤ i := by
  intro ms
  induction ms with
  | nil =>
    intro init hm
    cases hm
  | cons m0 ms ih =>
    intro init hm
    simp only [List.foldl_cons]
    rcases List.mem_cons.mp hm with rfl | hmem
    · simp only [hf]
      by_cases hlt : i < init
      · rw [if_pos ⟨hpos, hlt⟩]
        exact duitnowScanAux_le s ms i
      · rw [if_neg (fun hc => hlt hc.2)]
        exact le_trans (duitnowScanAux_le s ms init) (le_of_not_lt hlt)
    · cases hf0 : pyFind m0 s with
      | none =>
        simp only [hf0]
        exact ih init hmem
      | some idx =>
        simp only [hf0]
        by_cases hc : 0 < idx ∧ idx < init
        · rw [if_pos hc]
          exact ih idx hmem
        · rw [if_neg hc]
          exact ih init hmem

theorem duitnowScanAux_mem (s : String) :
    ∀ (ms : List String) (init : Nat),
      ms.foldl
        (fun acc marker =>
          match pyFind marker s with
          | some idx => if 0 < idx ∧ idx < acc then idx else acc
          | none => acc) init = init ∨
      ∃ m ∈ ms, pyFind m s = some (ms.foldl
        (fun acc marker =>
          match pyFind marker s with
          | some idx => if 0 < idx ∧ idx < acc then idx else acc
          | none => acc) init) ∧ 0 < ms.foldl
        (fun acc marker =>
          match pyFind marker s with
          | some idx => if 0 < idx ∧ idx < acc then idx else acc
          | none => acc) init := by
  intro ms
  induction ms with
  | nil =>
    intro init
    left
    rfl
  | cons m0 ms ih =>
    intro init
    simp only [List.foldl_cons]
    cases hf : pyFind m0 s with
    | none =>
      simp only [hf]
      rcases ih init with h | ⟨m, hm, hfind, hpos⟩
      · left
        exact h
      · right
        exact ⟨m, List.mem_cons_of_mem m0 hm, hfind, hpos⟩
    | some idx =>
      simp only [hf]
      by_cases hc : 0 < idx ∧ idx < init
      · rw [if_pos hc]
        rcases ih idx with h | ⟨m, hm, hfind, hpos⟩
        · right
          refine ⟨m0, List.mem_cons_self m0 ms, ?_, ?_⟩
          · rw [h]
            exact hf
          · rw [h]
            exact hc.1
        · right
          exact ⟨m, List.mem_cons_of_mem m0 hm, hfind, hpos⟩
      · rw [if_neg hc]
        rcases ih init with h | ⟨m, hm, hfind, hpos⟩
        · left
          exact h
        · right
          exact ⟨m, List.mem_cons_of_mem m0 hm, hfind, hpos⟩

theorem firstFoundIdx_first_listed (s p : String) (i : Nat)
    (hfind : pyFind p s = some i) :
    ∀ (ps : List String) (n : Nat), ps[n]? = some p →
      (∀ k q, k < n → ps[k]? = some q → pyFind q s = none) →
      firstFoundIdx ps s = some i := by
  intro ps
  induction ps with
  | nil =>
    intro n hget
    simp at hget
  | cons p0 ps ih =>
    intro n hget hearlier
    cases n with
    | zero =>
      simp only [List.getElem?_cons_zero, Option.some_inj] at hget
      subst hget
      unfold firstFoundIdx
      rw [hfind]
    | succ n =>
      have h0 : pyFind p0 s = none :=
        hearlier 0 p0 (Nat.succ_pos n) (by simp)
      unfold firstFoundIdx
      rw [h0]
      exact ih n (by simpa using hget)
        (fun k q hk hq => hearlier (k + 1) q (by omega) (by simpa using hq))

/-- Counterexample for claim C5: in the SG MBB Inward-PayNow remainder
"ACME IVPT-A BEXP-B" the earliest-occurring marker is "IVPT-" at index 5,
but the parser splits at "BEXP-" (index 12) because "BEXP-" is listed
first in the pattern list and the scan breaks on the first listed pattern
found anywhere. -/
theorem claim_C5_counterexample : ¬C5_claim_prop := by
  intro h
  have := h.2 "Inward PayNow from ACME IVPT-A BEXP-B" "ACME IVPT-A BEXP-B"
    (by decide) (by decide) 5 (by decide)
  exact absurd this (by decide)

/-- Claim C5 as amended: the PBB DuitNow scan splits at the smallest
first-occurrence index that is strictly positive among all markers
(markers whose first occurrence is at index 0 are ignored), defaulting to
the whole remainder; the SG MBB Inward-PayNow scan instead splits at the
first marker in the profile's LIST order that occurs anywhere in the
remainder, regardless of position. -/
theorem claim_C5_corrected :
    (∀ (txn_desc after_no : String) (k : Nat),
      pySplitPart1 "DUITNOW TRSF CR - NO: " txn_desc = some after_no →
      matchDigitsWs after_no = some k →
      pyFind "CUSTOMIND DESIGN" (strDrop after_no k) = none →
      (∀ m ∈ duitnowMarkers, ∀ i,
        pyFind m (strDrop after_no k) = some i → 0 < i →
        duitnowScan duitnowMarkers (strDrop after_no k) ≤ i) ∧
      (duitnowScan duitnowMarkers (strDrop after_no k) =
          strLen (strDrop after_no k) ∨
        ∃ m ∈ duitnowMarkers,
          pyFind m (strDrop after_no k) =
            some (duitnowScan duitnowMarkers (strDrop after_no k)) ∧
          0 < duitnowScan duitnowMarkers (strDrop after_no k)) ∧
      process_duitnow_transaction txn_desc =
        (if duitnowScan duitnowMarkers (strDrop after_no k) <
            strLen (strDrop after_no k) then
          (pyStrip (strTake (strDrop after_no k)
              (duitnowScan duitnowMarkers (strDrop after_no k))),
            pyStrip (strDrop (strDrop after_no k)
              (duitnowScan duitnowMarkers (strDrop after_no k))))
        else (pyStrip (strDrop after_no k), ""))) ∧
    (∀ (txn_desc remaining : String),
      pyStartsWith "Inward PayNow from " txn_desc →
      remaining = strDrop txn_desc (strLen "Inward PayNow from ") →
      ∀ (n : Nat) (p : String) (i : Nat),
        paynowPatterns[n]? = some p →
        (∀ k q, k < n → paynowPatterns[k]? = some q →
          pyFind q remaining = none) →
        pyFind p remaining = some i →
        process_inward_paynow_transaction txn_desc =
          (paynowNamePost (pyStrip (strTake remaining i)),
            pyStrip (strDrop remaining i))) := by
  constructor
  · intro txn_desc after_no k hsplit hdigits hcust
    refine ⟨?_, ?_, ?_⟩
    · intro m hm i hfi hpos
      exact duitnowScanAux_min (strDrop after_no k) m i hfi hpos
        duitnowMarkers (strLen (strDrop after_no k)) hm
    · exact duitnowScanAux_mem (strDrop after_no k) duitnowMarkers
        (strLen (strDrop after_no k))
    · unfold process_duitnow_transaction
      rw [hsplit]
      dsimp only
      rw [hdigits]
      dsimp only
      rw [hcust]
  · intro txn_desc remaining hstart hrem n p i hget hearlier hfind
    unfold process_inward_paynow_transaction
    dsimp only
    rw [← hrem, firstFoundIdx_first_listed remaining p i hfind paynowPatterns
      n hget hearlier]

/-- Witness for the amended claim C5: spec Scenario A's DuitNow
description splits at the "INV" marker (index 21, the least positive
first-occurrence), and a PayNow description with "BEXP-" at index 9
splits there ("BEXP-" is the first listed pattern and no earlier-listed
pattern occurs). -/
theorem claim_C5_corrected_witness :
    ((∀ m ∈ duitnowMarkers, ∀ i,
        pyFind m (strDrop "12345 ACME TRADING SDN BHD INV12345" 6) = some i →
        0 < i →
        duitnowScan duitnowMarkers
          (strDrop "12345 ACME TRADING SDN BHD INV12345" 6) ≤ i) ∧
      (duitnowScan duitnowMarkers
          (strDrop "12345 ACME TRADING SDN BHD INV12345" 6) =
          strLen (strDrop "12345 ACME TRADING SDN BHD INV12345" 6) ∨
        ∃ m ∈ duitnowMarkers,
          pyFind m (strDrop "12345 ACME TRADING SDN BHD INV12345" 6) =
            some (duitnowScan duitnowMarkers
              (strDrop "12345 ACME TRADING SDN BHD INV12345" 6)) ∧
          0 < duitnowScan duitnowMarkers
            (strDrop "12345 ACME TRADING SDN BHD INV12345" 6)) ∧
      process_duitnow_transaction
          "DUITNOW TRSF CR - NO: 12345 ACME TRADING SDN BHD INV12345" =
        (if duitnowScan duitnowMarkers
            (strDrop "12345 ACME TRADING SDN BHD INV12345" 6) <
            strLen (strDrop "12345 ACME TRADING SDN BHD INV12345" 6) then
          (pyStrip (strTake (strDrop "12345 ACME TRADING SDN BHD INV12345" 6)
              (duitnowScan duitnowMarkers
                (strDrop "12345 ACME TRADING SDN BHD INV12345" 6))),
            pyStrip (strDrop (strDrop "12345 ACME TRADING SDN BHD INV12345" 6)
              (duitnowScan duitnowMarkers
                (strDrop "12345 ACME TRADING SDN BHD INV12345" 6))))
        else (pyStrip (strDrop "12345 ACME TRADING SDN BHD INV12345" 6), ""))) ∧
    process_inward_paynow_transaction
        "Inward PayNow from JANE DOE BEXP-RENT" =
      (paynowNamePost (pyStrip (strTake "JANE DOE BEXP-RENT" 9)),
        pyStrip (strDrop "JANE DOE BEXP-RENT" 9)) :=
  ⟨claim_C5_corrected.1
      "DUITNOW TRSF CR - NO: 12345 ACME TRADING SDN BHD INV12345"
      "12345 ACME TRADING SDN BHD INV12345" 6 (by decide) (by decide)
      (by decide),
    claim_C5_corrected.2 "Inward PayNow from JANE DOE BEXP-RENT"
      "JANE DOE BEXP-RENT" (by decide) (by decide) 0 "BEXP-" 9 (by decide)
      (fun k q hk _ => absurd hk (Nat.not_lt_zero k)) (by decide)⟩

/-- Claim C7: the bank-description extraction functions of both parsers
are total pure functions of the cell value (they are Lean functions, so
totality and purity hold by construction, with every Python operation
they perform — find, slicing, regex search on the embedded patterns —
modelled by a total function), and on malformed input (`None`, NaN, the
empty string, or text with no recognized bank marker) they return
`("", "")`. -/
theorem claim_C7_extract_total_on_malformed :
    (∀ v : Cell, cellMalformedPbb v →
      pbb_extract_transaction_info v = ("", "")) ∧
    (∀ v : Cell, cellMalformedSg v →
      sg_extract_transaction_info v = ("", "")) := by
  constructor
  · intro v h
    cases v with
    | noneV => rfl
    | nanV => rfl
    | strV s =>
      by_cases hs : s = ""
      · subst hs
        rfl
      · have hrec : pbbRecognized s = false := by
          simp only [cellMalformedPbb, Bool.or_eq_true, decide_eq_true_eq,
            Bool.not_eq_true'] at h
          rcases h with h | h
          · exact absurd h hs
          · exact h
        simp only [pbbRecognized, Bool.or_eq_false_iff] at hrec
        obtain ⟨⟨⟨⟨h1, h2⟩, h3⟩, h4⟩, h5⟩ := hrec
        simp [pbb_extract_transaction_info, cellTruthy, cellIsNa, hs, pyStr,
          h1, h2, h3, h4, h5]
  · intro v h
    cases v with
    | noneV => rfl
    | nanV => rfl
    | strV s =>
      by_cases hs : s = ""
      · subst hs
        rfl
      · have hrec : sgRecognized (pyStrip s) = false := by
          simp only [cellMalformedSg, Bool.or_eq_true, decide_eq_true_eq,
            Bool.not_eq_true'] at h
          rcases h with h | h
          · exact absurd h hs
          · exact h
        simp only [sgRecognized, Bool.or_eq_false_iff] at hrec
        obtain ⟨⟨⟨h1, h2⟩, h3⟩, h4⟩ := hrec
        simp [sg_extract_transaction_info, cellTruthy, cellIsNa, hs, pyStr,
          h1, h2, h3, h4]

/-- Witness for claim C7: `None`, NaN, and unrecognized text all yield
`("", "")` in both parsers. -/
theorem claim_C7_extract_total_on_malformed_witness :
    pbb_extract_transaction_info Cell.noneV = ("", "") ∧
    pbb_extract_transaction_info (Cell.strV "UNRECOGNIZED FORMAT 42") =
      ("", "") ∧
    sg_extract_transaction_info Cell.nanV = ("", "") ∧
    sg_extract_transaction_info (Cell.strV "  UNRECOGNIZED FORMAT 42  ") =
      ("", "") :=
  ⟨claim_C7_extract_total_on_malformed.1 Cell.noneV (by decide),
    claim_C7_extract_total_on_malformed.1 (Cell.strV "UNRECOGNIZED FORMAT 42")
      (by decide),
    claim_C7_extract_total_on_malformed.2 Cell.nanV (by decide),
    claim_C7_extract_total_on_malformed.2
      (Cell.strV "  UNRECOGNIZED FORMAT 42  ") (by decide)⟩

theorem extractOne_aux_mem (scorer : String → String → ℚ) (query : String)
    (m : String) (sc : ℚ) :
    ∀ (l : List String) (acc : Option (String × ℚ)),
      l.foldl
        (fun acc c =>
          let s := scorer query c
          match acc with
          | none => some (c, s)
          | some (_, bs) => if s > bs then some (c, s) else acc)
        acc = some (m, sc) →
      acc = some (m, sc) ∨ m ∈ l := by
  intro l
  induction l with
  | nil =>
    intro acc h
    exact Or.inl h
  | cons c t ih =>
    intro acc h
    simp only [List.foldl_cons] at h
    rcases ih _ h with hacc | hmem
    · cases acc with
      | none =>
        simp only [Option.some_inj] at hacc
        injection hacc with h1 h2
        right
        rw [← h1]
        exact List.mem_cons_self c t
      | some p =>
        dsimp only at hacc
        by_cases hgt : scorer query c > p.2
        · rw [if_pos hgt] at hacc
          simp only [Option.some_inj] at hacc
          injection hacc with h1 h2
          right
          rw [← h1]
          exact List.mem_cons_self c t
        · rw [if_neg hgt] at hacc
          exact Or.inl hacc
    · right
      exact List.mem_cons_of_mem c hmem

theorem extractOne_mem (scorer : String → String → ℚ) (query : String)
    (choices : List String) (m : String) (sc : ℚ)
    (h : extractOne scorer query choices = some (m, sc)) : m ∈ choices := by
  rcases extractOne_aux_mem scorer query m sc choices none h with hacc | hmem
  · cases hacc
  · exact hmem

theorem lookupRef_of_mem_keys (d : List (String × String)) (k : String)
    (h : k ∈ d.map Prod.fst) : ∃ v, lookupRef d k = some v := by
  induction d with
  | nil => cases h
  | cons p t ih =>
    by_cases hk : p.1 = k
    · exact ⟨p.2, by simp [lookupRef, List.find?, hk]⟩
    · have hmem : k ∈ t.map Prod.fst := by
        rcases List.mem_cons.mp h with h0 | h0
        · exact absurd h0.symm hk
        · exact h0
      obtain ⟨v, hv⟩ := ih hmem
      refine ⟨v, ?_⟩
      simp only [lookupRef] at hv ⊢
      rw [List.find?_cons_of_neg _ (by simpa using hk)]
      exact hv

/-- Claim C8: for every non-empty raw name and loaded model (whose
fuzzy-candidate list is the exact-match dictionary's key list, as the
training scripts build it), `predict_clean_name` resolves with the first
hit winning: (1) exact case-insensitive dictionary lookup; (2) fuzzy
best-match over the key list, accepted when its score is at least
`fuzzy_threshold` (default 85 on fuzzywuzzy's 0-100 scale, i.e. the
normalized ratio 0.85); (3) the classifier's prediction, accepted when
its probability is at least `min_confidence` (default 1/2); (4) the
deterministic `basic_clean_customer_name` fallback — each hit formatted
by `format_customer_name`. -/
theorem claim_C8_resolution_order (scorer : String → String → ℚ)
    (model_data : TrainedNameModel) (raw_name : String)
    (min_confidence fuzzy_threshold : ℚ) (hraw : raw_name ≠ "")
    (hwf : model_data.training_examples =
      model_data.reference_dict.map Prod.fst) :
    (∀ v, lookupRef model_data.reference_dict (pyLower raw_name) = some v →
      predict_clean_name scorer model_data raw_name min_confidence
        fuzzy_threshold = .ok (format_customer_name v)) ∧
    (lookupRef model_data.reference_dict (pyLower raw_name) = none →
      ∀ m sc, extractOne scorer (pyLower raw_name)
          model_data.training_examples = some (m, sc) →
        fuzzy_threshold ≤ sc →
        ∃ v, lookupRef model_data.reference_dict m = some v ∧
          predict_clean_name scorer model_data raw_name min_confidence
            fuzzy_threshold = .ok (format_customer_name v)) ∧
    (lookupRef model_data.reference_dict (pyLower raw_name) = none →
      ∀ m sc, extractOne scorer (pyLower raw_name)
          model_data.training_examples = some (m, sc) →
        sc < fuzzy_threshold →
        min_confidence ≤ model_data.classifierMaxProba raw_name →
        predict_clean_name scorer model_data raw_name min_confidence
          fuzzy_threshold =
          .ok (format_customer_name (model_data.classifierPredict raw_name))) ∧
    (lookupRef model_data.reference_dict (pyLower raw_name) = none →
      ∀ m sc, extractOne scorer (pyLower raw_name)
          model_data.training_examples = some (m, sc) →
        sc < fuzzy_threshold →
        model_data.classifierMaxProba raw_name < min_confidence →
        predict_clean_name scorer model_data raw_name min_confidence
          fuzzy_threshold =
          .ok (format_customer_name
            (basic_clean_customer_name raw_name))) := by
  refine ⟨?_, ?_, ?_, ?_⟩
  · intro v hv
    unfold predict_clean_name
    rw [if_neg hraw, hv]
  · intro hnone m sc hext hth
    have hmem : m ∈ model_data.reference_dict.map Prod.fst := by
      rw [← hwf]
      exact extractOne_mem scorer (pyLower raw_name)
        model_data.training_examples m sc hext
    obtain ⟨v, hv⟩ := lookupRef_of_mem_keys model_data.reference_dict m hmem
    refine ⟨v, hv, ?_⟩
    unfold predict_clean_name
    rw [if_neg hraw, hnone, hext]
    dsimp only
    rw [if_pos hth, hv]
  · intro hnone m sc hext hth hconf
    unfold predict_clean_name
    rw [if_neg hraw, hnone, hext]
    dsimp only
    rw [if_neg (not_le.mpr hth), if_pos hconf]
  · intro hnone m sc hext hth hconf
    unfold predict_clean_name
    rw [if_neg hraw, hnone, hext]
    dsimp only
    rw [if_neg (not_le.mpr hth), if_neg (not_le.mpr hconf)]

/-- Witness for claim C8: on a concrete model all four resolution
branches fire in order — exact lookup, accepted fuzzy match, accepted
classifier prediction, and deterministic-cleaning fallback. -/
theorem claim_C8_resolution_order_witness :
    (predict_clean_name fuzzyLo mdDemo "ACME CORP" defaultMinConfidence
        defaultFuzzyThreshold = .ok (format_customer_name "Acme Corporation")) ∧
    (∃ v, lookupRef mdDemo.reference_dict "acme corp" = some v ∧
      predict_clean_name fuzzyHi mdDemo "ACME KORP" defaultMinConfidence
        defaultFuzzyThreshold = .ok (format_customer_name v)) ∧
    (predict_clean_name fuzzyLo mdDemo "ACME KORP" defaultMinConfidence
        defaultFuzzyThreshold =
      .ok (format_customer_name (mdDemo.classifierPredict "ACME KORP"))) ∧
    (predict_clean_name fuzzyLo mdDemo "ACME KORP" (mkRat 9 10)
        defaultFuzzyThreshold =
      .ok (format_customer_name (basic_clean_customer_name "ACME KORP"))) :=
  ⟨(claim_C8_resolution_order fuzzyLo mdDemo "ACME CORP" defaultMinConfidence
      defaultFuzzyThreshold (by decide) (by decide)).1 "Acme Corporation"
      (by decide),
    (claim_C8_resolution_order fuzzyHi mdDemo "ACME KORP" defaultMinConfidence
      defaultFuzzyThreshold (by decide) (by decide)).2.1 (by decide)
      "acme corp" 90 (by decide) (by decide),
    (claim_C8_resolution_order fuzzyLo mdDemo "ACME KORP" defaultMinConfidence
      defaultFuzzyThreshold (by decide) (by decide)).2.2.1 (by decide)
      "acme corp" 10 (by decide) (by decide) (by decide),
    (claim_C8_resolution_order fuzzyLo mdDemo "ACME KORP" (mkRat 9 10)
      defaultFuzzyThreshold (by decide) (by decide)).2.2.2 (by decide)
      "acme corp" 10 (by decide) (by decide) (by decide)⟩

/-- Counterexample for claim C9: with the matching candidates
[blocked, blocked, unblocked], the code returns the SECOND entry — which
is blocked — although an unblocked alternative exists: the blocked-entry
deprioritization only ever steps from the first entry to the second. -/
theorem claim_C9_counterexample : ¬C9_claim_prop := by
  intro h
  obtain ⟨ci, hci, hbl⟩ := h bcCallThree "JOHN"
    [bcBlockedA, bcBlockedB, bcUnblockedC] (by decide) rfl
    ⟨bcUnblockedC, by decide, by decide⟩
  have heval : get_customer_info bcCallThree "JOHN" =
      some ⟨"id-b", "C002", "BLOCKED TWO", true⟩ := rfl
  rw [heval] at hci
  injection hci with h1
  rw [← h1] at hbl
  exact absurd hbl (by decide)

/-- Claim C9 as amended: only the first matching entry's blocked flag is
consulted.  With a non-empty candidate list the lookup always returns a
record (never silently dropped): the second entry when the first is
blocked and a second exists (even if that second entry is itself
blocked), otherwise the first entry.  An unblocked entry is therefore
preferred over a blocked one only in the first-versus-second position;
a blocked entry can be returned even when an unblocked alternative
appears later in the list. -/
theorem claim_C9_corrected (call : String → Except String (List BCCustomer))
    (customer_name : String) (c1 : BCCustomer) (rest : List BCCustomer)
    (hname : customer_name ≠ "")
    (hcall : call (encodeNameForBC customer_name) = .ok (c1 :: rest)) :
    get_customer_info call customer_name =
      some ⟨(pickCustomer c1 rest).id, (pickCustomer c1 rest).number,
        (pickCustomer c1 rest).displayName,
        (pickCustomer c1 rest).blocked = "All"⟩ := by
  unfold get_customer_info
  rw [if_neg hname, hcall]

/-- Witness for the amended claim C9: a blocked entry followed by an
unblocked one yields the unblocked second entry. -/
theorem claim_C9_corrected_witness :
    get_customer_info bcCallTwo "JOHN" =
      some ⟨(pickCustomer bcBlockedA [bcUnblockedC]).id,
        (pickCustomer bcBlockedA [bcUnblockedC]).number,
        (pickCustomer bcBlockedA [bcUnblockedC]).displayName,
        (pickCustomer bcBlockedA [bcUnblockedC]).blocked = "All"⟩ :=
  claim_C9_corrected bcCallTwo "JOHN" bcBlockedA [bcUnblockedC] (by decide) rfl
